import Mathlib

/-!
# StaticNurseScheduler: the modelling layer (`Modeler.h`, `ScipModeler.cpp`)

A shallow embedding of the solver facade of the nurse scheduler.

* A C `double` is represented by the exact rational value of a finite double
  (`Dbl`); infinities and NaN are not represented.
* `unsigned int` is a natural number reduced modulo `2 ^ 32`.
* A C++ function that reaches its closing brace without executing a `return`
  statement delivers no value: its result is `none`.
* `SCIP_CALL(x)`, a macro of the SCIP headers, makes the enclosing function return
  the code of `x` when that code is not `SCIP_OKAY`.
* The SCIP library is an external engine.  Its state is the sequence of
  state-changing requests it has received (`Scip`), and its answers are given
  by an engine description (`ScipEngine`) over which the theorems quantify.
  Engine queries (`SCIPinfinity`, `SCIPgetBestSol`, `SCIPgetSolVal`,
  `SCIPgetDualsolLinear`, `SCIPgetTransformedCons`) do not change that state.
-/

namespace StaticNurseScheduler

/-! ## Numbers -/

/-- A C `double`, by its exact rational value. -/
abbrev Dbl := ℚ

/-- The constant `DBL_MIN` of `<cfloat>`: the least positive normalised double, `2 ^ (-1022)`. -/
@[irreducible] def DBL_MIN : Dbl := 1 / ((2 ^ 1022 : ℕ) : ℚ)

/-- The constant `DBL_MAX` of `<cfloat>`: the greatest finite double, `(2 ^ 53 - 1) * 2 ^ 971`. -/
@[irreducible] def DBL_MAX : Dbl := (((2 ^ 53 - 1) * 2 ^ 971 : ℕ) : ℚ)

/-- The number of values of an `unsigned int`. -/
def UINT_RANGE : ℕ := 2 ^ 32

/-- The C function `round`: the nearest integer, halves away from zero. -/
def round (x : Dbl) : ℤ :=
  if 0 ≤ x then ⌊x + 1 / 2⌋ else ⌈x - 1 / 2⌉

/-! ## `MyObject` (Modeler.h, lines 33-54) -/

/-- The struct `MyObject`: a name of at most 255 characters and an identifier. -/
structure MyObject where
  name_ : String
  id_ : ℕ
deriving DecidableEq, Repr

/-- The call `strncpy(name2, name, 255)`: at most 255 characters are copied. -/
def strncpy255 (name : String) : String := ⟨name.data.take 255⟩

/-- The constructor `MyObject(const char* name)`, run with the static counter at `s_count`:
the object built and the counter after `++s_count`. -/
def MyObject.new (s_count : ℕ) (name : String) : MyObject × ℕ :=
  ({ name_ := strncpy255 name, id_ := s_count }, (s_count + 1) % UINT_RANGE)

/-- The copy constructor `MyObject(const MyObject&)`: same identifier, the counter is not touched. -/
def MyObject.copy (myObject : MyObject) : MyObject :=
  { name_ := strncpy255 myObject.name_, id_ := myObject.id_ }

/-- The member `int operator < (const MyObject& m) const`. -/
def MyObject.lt (self m : MyObject) : ℤ :=
  if self.id_ < m.id_ then 1 else 0

/-- The constructions `MyObject(name)` for each name of a list, in order, from counter `s_count`. -/
def MyObject.newMany : ℕ → List String → List MyObject × ℕ
  | s_count, [] => ([], s_count)
  | s_count, name :: rest =>
    ((MyObject.new s_count name).1 :: (MyObject.newMany (MyObject.new s_count name).2 rest).1,
     (MyObject.newMany (MyObject.new s_count name).2 rest).2)

/-- The enum `VarType` (Modeler.h, line 91). -/
inductive VarType
  | VARTYPE_CONTINUOUS
  | VARTYPE_INTEGER
  | VARTYPE_BINARY
deriving DecidableEq, Repr

/-! ## The engine boundary (SCIP) -/

/-- An engine return code; `SCIP_OKAY` is `1`. -/
abbrev SCIP_RETCODE := ℤ

/-- The return code of a successful engine call. -/
def SCIP_OKAY : SCIP_RETCODE := 1

/-- The return code SCIP uses for rejected data. -/
def SCIP_INVALIDDATA : SCIP_RETCODE := -9

/-- A pointer `SCIP_VAR*`, by its address; `0` is the null pointer. -/
abbrev SCIP_VAR := ℕ

/-- A pointer `SCIP_CONS*`, by its address; `0` is the null pointer. -/
abbrev SCIP_CONS := ℕ

/-- A pointer `SCIP_SOL*`, by its address. -/
abbrev SCIP_SOL := ℕ

/-- The engine's variable types. -/
inductive SCIP_VARTYPE
  | SCIP_VARTYPE_BINARY
  | SCIP_VARTYPE_INTEGER
  | SCIP_VARTYPE_IMPLINT
  | SCIP_VARTYPE_CONTINUOUS
deriving DecidableEq, Repr

/-- The state-changing requests that `ScipModeler.cpp` sends to the engine, with the arguments
it passes.  An array argument is the vector whose first element the pointer designates. -/
inductive ScipRequest
  | createVar (name : String) (lb ub obj : Dbl) (vartype : SCIP_VARTYPE) (initial removable : Bool)
  | addPricedVar (var : SCIP_VAR) (score : Dbl)
  | addVar (var : SCIP_VAR)
  | createConsLinear (name : String) (nvars : ℕ) (vars : List SCIP_VAR) (vals : List Dbl)
      (lhs rhs : Dbl)
      (initial separate enforce check propagate islocal modifiable dynamic removable
        stickingatnode : Bool)
  | addCons (cons : SCIP_CONS)
  | addCoefLinear (cons : SCIP_CONS) (var : SCIP_VAR) (val : Dbl)
deriving DecidableEq, Repr

/-- A request together with the return code the engine gave it. -/
structure ScipEvent where
  req : ScipRequest
  rc : SCIP_RETCODE
deriving DecidableEq, Repr

/-- The engine state `SCIP* scip_`: the requests received so far, oldest first. -/
abbrev Scip := List ScipEvent

/-- The behaviour of the external engine: its answer to each call in each state. -/
structure ScipEngine where
  /-- The value of `SCIPinfinity`. -/
  infinity : Dbl
  /-- The return code of a state-changing request. -/
  retcode : Scip → ScipRequest → SCIP_RETCODE
  /-- The pointer written by `SCIPcreateVar`. -/
  newVar : Scip → SCIP_VAR
  /-- The pointer written by `SCIPcreateConsLinear`. -/
  newCons : Scip → SCIP_CONS
  /-- The return code of `SCIPgetTransformedCons` and the pointer it leaves in its output. -/
  getTransformedCons : Scip → SCIP_CONS → SCIP_RETCODE × SCIP_CONS
  /-- The value of `SCIPgetBestSol`. -/
  getBestSol : Scip → SCIP_SOL
  /-- The value of `SCIPgetSolVal`. -/
  getSolVal : Scip → SCIP_SOL → SCIP_VAR → Dbl
  /-- The value of `SCIPgetDualsolLinear`. -/
  getDualsolLinear : Scip → SCIP_CONS → Dbl
  /-- The field `branchfactor` of an engine variable, read through `var3->branchfactor`. -/
  branchfactor : Scip → SCIP_VAR → Dbl

/-- The engine receives a request: the return code and the new engine state. -/
def Scip.send (E : ScipEngine) (scip : Scip) (req : ScipRequest) : SCIP_RETCODE × Scip :=
  (E.retcode scip req, scip ++ [{ req := req, rc := E.retcode scip req }])

/-- The requests of an engine state that the engine accepted. -/
def Scip.accepted (scip : Scip) : List ScipRequest :=
  (scip.filter fun e => e.rc = SCIP_OKAY).map ScipEvent.req

/-- The call `SCIPcreateVar(scip, &var, name, lb, ub, obj, vartype, initial, removable, 0, 0, 0, 0, 0)`:
return code, new engine state and the pointer written to `var`. -/
def SCIPcreateVar (E : ScipEngine) (scip : Scip) (name : String) (lb ub obj : Dbl)
    (vartype : SCIP_VARTYPE) (initial removable : Bool) : SCIP_RETCODE × Scip × SCIP_VAR :=
  ((Scip.send E scip (.createVar name lb ub obj vartype initial removable)).1,
   (Scip.send E scip (.createVar name lb ub obj vartype initial removable)).2,
   E.newVar scip)

/-- The call `SCIPaddPricedVar(scip, var, score)`. -/
def SCIPaddPricedVar (E : ScipEngine) (scip : Scip) (var : SCIP_VAR) (score : Dbl) :
    SCIP_RETCODE × Scip :=
  Scip.send E scip (.addPricedVar var score)

/-- The call `SCIPaddVar(scip, var)`. -/
def SCIPaddVar (E : ScipEngine) (scip : Scip) (var : SCIP_VAR) : SCIP_RETCODE × Scip :=
  Scip.send E scip (.addVar var)

/-- The call `SCIPcreateConsLinear(scip, &cons, name, nvars, vars, vals, lhs, rhs, ...)` with its
ten flags: return code, new engine state and the pointer written to `cons`. -/
def SCIPcreateConsLinear (E : ScipEngine) (scip : Scip) (name : String) (nvars : ℕ)
    (vars : List SCIP_VAR) (vals : List Dbl) (lhs rhs : Dbl)
    (initial separate enforce check propagate islocal modifiable dynamic removable
      stickingatnode : Bool) : SCIP_RETCODE × Scip × SCIP_CONS :=
  ((Scip.send E scip (.createConsLinear name nvars vars vals lhs rhs initial separate enforce
      check propagate islocal modifiable dynamic removable stickingatnode)).1,
   (Scip.send E scip (.createConsLinear name nvars vars vals lhs rhs initial separate enforce
      check propagate islocal modifiable dynamic removable stickingatnode)).2,
   E.newCons scip)

/-- The call `SCIPaddCons(scip, cons)`. -/
def SCIPaddCons (E : ScipEngine) (scip : Scip) (cons : SCIP_CONS) : SCIP_RETCODE × Scip :=
  Scip.send E scip (.addCons cons)

/-- The call `SCIPaddCoefLinear(scip, cons, var, val)`. -/
def SCIPaddCoefLinear (E : ScipEngine) (scip : Scip) (cons : SCIP_CONS) (var : SCIP_VAR)
    (val : Dbl) : SCIP_RETCODE × Scip :=
  Scip.send E scip (.addCoefLinear cons var val)

/-! ## Handles of the SCIP binding -/

/-- The two handle classes of the SCIP binding. -/
inductive HandleClass
  | ScipVar
  | ScipCons
deriving DecidableEq, Repr

/-- Modelled from the spec: the classes `ScipVar` and `ScipCons` are declared in `ScipModeler.h`,
which is not among the sources.  A handle is a `MyObject` that stores the engine pointer it
wraps ("engine-side pointers stored as opaque payload behind the Handle"). -/
structure ScipObject extends MyObject where
  cls : HandleClass
  ptr_ : ℕ
deriving DecidableEq, Repr

/-- Modelled from the spec: the constructor `ScipVar(SCIP_VAR*)`, absent from the sources.  It runs
the constructor of `MyObject` on the name of the engine variable and stores the pointer. -/
def ScipVar.new (s_count : ℕ) (name : String) (var : SCIP_VAR) : ScipObject × ℕ :=
  ({ toMyObject := (MyObject.new s_count name).1, cls := .ScipVar, ptr_ := var },
   (MyObject.new s_count name).2)

/-- Modelled from the spec: the constructor `ScipCons(SCIP_CONS*)`, absent from the sources.  It
runs the constructor of `MyObject` on the name of the engine row and stores the pointer. -/
def ScipCons.new (s_count : ℕ) (name : String) (cons : SCIP_CONS) : ScipObject × ℕ :=
  ({ toMyObject := (MyObject.new s_count name).1, cls := .ScipCons, ptr_ := cons },
   (MyObject.new s_count name).2)

/-- Modelled from the spec: `((ScipVar*) var)->get(&var3)`, absent from the sources.  The C cast
is unchecked, so the stored pointer is delivered whatever the class of the handle. -/
def ScipVar.get (var : ScipObject) : SCIP_VAR := var.ptr_

/-- Modelled from the spec: `((ScipCons*) cons)->get(&cons3)`, absent from the sources.  The C cast
is unchecked, so the stored pointer is delivered whatever the class of the handle. -/
def ScipCons.get (cons : ScipObject) : SCIP_CONS := cons.ptr_

/-! ## `ScipModeler` (ScipModeler.cpp) -/

/-- The members of a `ScipModeler` instance: the engine `scip_` and the registry `objects_`
inherited from `Modeler`. -/
structure ScipModeler where
  scip_ : Scip
  objects_ : List ScipObject
deriving DecidableEq, Repr

/-- What a method of `ScipModeler` can read and write: the static counter `MyObject::s_count`
of the process, and the instance the method is called on. -/
structure Process where
  s_count : ℕ
  self : ScipModeler
deriving DecidableEq, Repr

/-- The lower bound handed to the engine by `createVar` (lines 48-49):
`if(lb==DBL_MIN) lb = -SCIPinfinity(scip_)`. -/
def ScipModeler.createVar.lb (E : ScipEngine) (lb : Dbl) : Dbl :=
  if lb = DBL_MIN then -E.infinity else lb

/-- The upper bound handed to the engine by `createVar` (lines 50-51):
`if(ub==DBL_MAX) ub = SCIPinfinity(scip_)`. -/
def ScipModeler.createVar.ub (E : ScipEngine) (ub : Dbl) : Dbl :=
  if ub = DBL_MAX then E.infinity else ub

/-- The engine type chosen by the `switch` of `createVar` (lines 53-64). -/
def ScipModeler.createVar.type (vartype : VarType) : SCIP_VARTYPE :=
  match vartype with
  | .VARTYPE_BINARY => .SCIP_VARTYPE_BINARY
  | .VARTYPE_INTEGER => .SCIP_VARTYPE_INTEGER
  | _ => .SCIP_VARTYPE_CONTINUOUS

/-- The method `ScipModeler::createVar` (lines 47-76).  `var` is the content of the caller's slot
`*var` before the call.  The result is the value returned (a `SCIP_CALL` that fails returns the
engine's code; otherwise no `return` is executed), the new state and the content of `*var`. -/
def ScipModeler.createVar (E : ScipEngine) (p : Process) (var : ScipObject) (var_name : String)
    (objCoeff lb ub : Dbl) (vartype : VarType) (score : Dbl) :
    Option SCIP_RETCODE × Process × ScipObject :=
  let lb := ScipModeler.createVar.lb E lb
  let ub := ScipModeler.createVar.ub E ub
  let type := ScipModeler.createVar.type vartype
  let c := SCIPcreateVar E p.self.scip_ var_name lb ub objCoeff type true false
  let var2 := c.2.2
  if c.1 ≠ SCIP_OKAY then
    (some c.1, { p with self := { p.self with scip_ := c.2.1 } }, var)
  else
    let a := if score > 0 then SCIPaddPricedVar E c.2.1 var2 score else SCIPaddVar E c.2.1 var2
    if a.1 ≠ SCIP_OKAY then
      (some a.1, { p with self := { p.self with scip_ := a.2 } }, var)
    else
      let n := ScipVar.new p.s_count var_name var2
      (none,
       { s_count := n.2, self := { scip_ := a.2, objects_ := p.self.objects_ ++ [n.1] } },
       n.1)

/-- The method `ScipModeler::createConsLinear` (lines 88-105): the row is created with the flag
`modifiable` set. -/
def ScipModeler.createConsLinear (E : ScipEngine) (p : Process) (con : ScipObject)
    (con_name : String) (lhs rhs : Dbl) (vars : List ScipObject) (coeffs : List Dbl) :
    Option SCIP_RETCODE × Process × ScipObject :=
  let vars2 := vars.map ScipVar.get
  let c := SCIPcreateConsLinear E p.self.scip_ con_name vars2.length vars2 coeffs lhs rhs
    true false true true true false true false false false
  let con2 := c.2.2
  if c.1 ≠ SCIP_OKAY then
    (some c.1, { p with self := { p.self with scip_ := c.2.1 } }, con)
  else
    let a := SCIPaddCons E c.2.1 con2
    if a.1 ≠ SCIP_OKAY then
      (some a.1, { p with self := { p.self with scip_ := a.2 } }, con)
    else
      let n := ScipCons.new p.s_count con_name con2
      (none,
       { s_count := n.2, self := { scip_ := a.2, objects_ := p.self.objects_ ++ [n.1] } },
       n.1)

/-- The method `ScipModeler::createFinalConsLinear` (lines 108-125): the row is created with the
flag `modifiable` cleared. -/
def ScipModeler.createFinalConsLinear (E : ScipEngine) (p : Process) (con : ScipObject)
    (con_name : String) (lhs rhs : Dbl) (vars : List ScipObject) (coeffs : List Dbl) :
    Option SCIP_RETCODE × Process × ScipObject :=
  let vars2 := vars.map ScipVar.get
  let c := SCIPcreateConsLinear E p.self.scip_ con_name vars2.length vars2 coeffs lhs rhs
    true false true true true false false false false false
  let con2 := c.2.2
  if c.1 ≠ SCIP_OKAY then
    (some c.1, { p with self := { p.self with scip_ := c.2.1 } }, con)
  else
    let a := SCIPaddCons E c.2.1 con2
    if a.1 ≠ SCIP_OKAY then
      (some a.1, { p with self := { p.self with scip_ := a.2 } }, con)
    else
      let n := ScipCons.new p.s_count con_name con2
      (none,
       { s_count := n.2, self := { scip_ := a.2, objects_ := p.self.objects_ ++ [n.1] } },
       n.1)

/-- The method `ScipModeler::getTransformedCons` (lines 156-158): the value returned and the
content of `*cons2` after the call. -/
def ScipModeler.getTransformedCons (E : ScipEngine) (p : Process) (cons : SCIP_CONS) :
    Option SCIP_RETCODE × SCIP_CONS :=
  let t := E.getTransformedCons p.self.scip_ cons
  if t.1 ≠ SCIP_OKAY then (some t.1, t.2) else (none, t.2)

/-- The method `ScipModeler::addCoefLinear` (lines 131-142): the value returned and the new
state.  The value returned by `getTransformedCons` is not looked at. -/
def ScipModeler.addCoefLinear (E : ScipEngine) (p : Process) (cons var : ScipObject)
    (coeff : Dbl) (transformed : Bool) : Option SCIP_RETCODE × Process :=
  let cons3 := ScipCons.get cons
  let var3 := ScipVar.get var
  let cons3 := if transformed then (ScipModeler.getTransformedCons E p cons3).2 else cons3
  let a := SCIPaddCoefLinear E p.self.scip_ cons3 var3 coeff
  if a.1 ≠ SCIP_OKAY then
    (some a.1, { p with self := { p.self with scip_ := a.2 } })
  else
    (none, { p with self := { p.self with scip_ := a.2 } })

/-- The method `ScipModeler::getBestSol` (lines 164-166). -/
def ScipModeler.getBestSol (E : ScipEngine) (p : Process) : SCIP_SOL :=
  E.getBestSol p.self.scip_

/-- The expression statement that ends `ScipModeler::getVarValue` (line 173):
`SCIPgetSolVal(scip_, getBestSol(), var3)`. -/
def ScipModeler.getVarValue.lastStatement (E : ScipEngine) (p : Process) (var : ScipObject) :
    Dbl :=
  E.getSolVal p.self.scip_ (ScipModeler.getBestSol E p) (ScipVar.get var)

/-- The method `ScipModeler::getVarValue` (lines 168-174).  The value of its last statement is
computed and dropped, and the closing brace is reached with no `return`: no value is returned. -/
def ScipModeler.getVarValue (E : ScipEngine) (p : Process) (var : ScipObject) :
    Option Dbl × Process :=
  let _dropped := ScipModeler.getVarValue.lastStatement E p var
  (none, p)

/-- The pointer `cons3` that `ScipModeler::getDual` hands to `SCIPgetDualsolLinear`
(lines 181-186). -/
def ScipModeler.getDual.cons3 (E : ScipEngine) (p : Process) (cons : ScipObject)
    (transformed : Bool) : SCIP_CONS :=
  if transformed then (ScipModeler.getTransformedCons E p (ScipCons.get cons)).2
  else ScipCons.get cons

/-- The expression statement that ends `ScipModeler::getDual` (line 187):
`SCIPgetDualsolLinear(scip_, cons3)`. -/
def ScipModeler.getDual.lastStatement (E : ScipEngine) (p : Process) (cons : ScipObject)
    (transformed : Bool) : Dbl :=
  E.getDualsolLinear p.self.scip_ (ScipModeler.getDual.cons3 E p cons transformed)

/-- The method `ScipModeler::getDual` (lines 180-188).  The value of its last statement is
computed and dropped, and the closing brace is reached with no `return`: no value is returned. -/
def ScipModeler.getDual (E : ScipEngine) (p : Process) (cons : ScipObject)
    (transformed : Bool) : Option Dbl × Process :=
  let _dropped := ScipModeler.getDual.lastStatement E p cons transformed
  (none, p)

/-- The method `ScipModeler::getTotalCost` (lines 203-210): `double value = getVarValue(var);
return value * var3->branchfactor;`.  The product has a value only when `getVarValue` delivered
one. -/
def ScipModeler.getTotalCost (E : ScipEngine) (p : Process) (var : ScipObject) :
    Option Dbl × Process :=
  let var3 := ScipVar.get var
  ((ScipModeler.getVarValue E p var).1.map fun value =>
      value * E.branchfactor (ScipModeler.getVarValue E p var).2.self.scip_ var3,
   (ScipModeler.getVarValue E p var).2)

/-! ## The abstract class `Modeler` (Modeler.h, lines 93-331) -/

/-- The pure virtual methods of `Modeler` that its inline methods call, for a state `σ` and a
handle type `H` (the type of `MyObject*`).  A creation method receives the content of the caller's
slot `*var` and yields the value returned, the new state and the new content of the slot. -/
structure Modeler (σ H : Type) where
  createVar : σ → H → String → Dbl → Dbl → Dbl → VarType → Dbl → Option ℤ × σ × H
  createColumnVar : σ → H → String → Dbl → Dbl → Dbl → Dbl → VarType → Dbl → Option ℤ × σ × H
  createConsLinear : σ → H → String → Dbl → Dbl → List H → List Dbl → Option ℤ × σ × H
  createFinalConsLinear : σ → H → String → Dbl → Dbl → List H → List Dbl → Option ℤ × σ × H
  addCoefLinear : σ → H → H → Dbl → Bool → Option ℤ × σ
  getVarValue : σ → H → Option Dbl × σ
  getDual : σ → H → Bool → Option Dbl × σ

section ModelerMethods

variable {σ H : Type}

/-- The inline method `createPositiveVar` (lines 123-125); the defaults are `score = 0` and
`ub = DBL_MAX`. -/
def Modeler.createPositiveVar (M : Modeler σ H) (s : σ) (var : H) (var_name : String)
    (objCoeff score ub : Dbl) : σ × H :=
  (M.createVar s var var_name objCoeff 0 ub .VARTYPE_CONTINUOUS score).2

/-- The inline method `createIntVar` (lines 127-129); the defaults are `score = 0` and
`ub = DBL_MAX`. -/
def Modeler.createIntVar (M : Modeler σ H) (s : σ) (var : H) (var_name : String)
    (objCoeff score ub : Dbl) : σ × H :=
  (M.createVar s var var_name objCoeff 0 ub .VARTYPE_INTEGER score).2

/-- The inline method `createBinaryVar` (lines 131-133); the default is `score = 0`. -/
def Modeler.createBinaryVar (M : Modeler σ H) (s : σ) (var : H) (var_name : String)
    (objCoeff score : Dbl) : σ × H :=
  (M.createVar s var var_name objCoeff 0 1 .VARTYPE_BINARY score).2

/-- The inline method `createPositiveColumnVar` (lines 138-140); the defaults are
`dualObj = 99999`, `score = 0` and `ub = DBL_MAX`. -/
def Modeler.createPositiveColumnVar (M : Modeler σ H) (s : σ) (var : H) (var_name : String)
    (objCoeff dualObj score ub : Dbl) : σ × H :=
  (M.createColumnVar s var var_name objCoeff dualObj 0 ub .VARTYPE_CONTINUOUS score).2

/-- The inline method `createIntColumnVar` (lines 142-144); the defaults are `dualObj = 99999`,
`score = 0` and `ub = DBL_MAX`. -/
def Modeler.createIntColumnVar (M : Modeler σ H) (s : σ) (var : H) (var_name : String)
    (objCoeff dualObj score ub : Dbl) : σ × H :=
  (M.createColumnVar s var var_name objCoeff dualObj 0 ub .VARTYPE_INTEGER score).2

/-- The inline method `createBinaryColumnVar` (lines 146-148); the defaults are
`dualObj = 99999` and `score = 0`. -/
def Modeler.createBinaryColumnVar (M : Modeler σ H) (s : σ) (var : H) (var_name : String)
    (objCoeff dualObj score : Dbl) : σ × H :=
  (M.createColumnVar s var var_name objCoeff dualObj 0 1 .VARTYPE_BINARY score).2

/-- The inline method `createLEConsLinear` (lines 164-167). -/
def Modeler.createLEConsLinear (M : Modeler σ H) (s : σ) (cons : H) (con_name : String)
    (rhs : Dbl) (vars : List H) (coeffs : List Dbl) : σ × H :=
  (M.createConsLinear s cons con_name DBL_MIN rhs vars coeffs).2

/-- The inline method `createGEConsLinear` (lines 170-173). -/
def Modeler.createGEConsLinear (M : Modeler σ H) (s : σ) (cons : H) (con_name : String)
    (lhs : Dbl) (vars : List H) (coeffs : List Dbl) : σ × H :=
  (M.createConsLinear s cons con_name lhs DBL_MAX vars coeffs).2

/-- The inline method `createEQConsLinear` (lines 176-179). -/
def Modeler.createEQConsLinear (M : Modeler σ H) (s : σ) (cons : H) (con_name : String)
    (eq : Dbl) (vars : List H) (coeffs : List Dbl) : σ × H :=
  (M.createConsLinear s cons con_name eq eq vars coeffs).2

/-- The inline method `createFinalLEConsLinear` (lines 185-188). -/
def Modeler.createFinalLEConsLinear (M : Modeler σ H) (s : σ) (cons : H) (con_name : String)
    (rhs : Dbl) (vars : List H) (coeffs : List Dbl) : σ × H :=
  (M.createFinalConsLinear s cons con_name DBL_MIN rhs vars coeffs).2

/-- The inline method `createFinalGEConsLinear` (lines 190-193). -/
def Modeler.createFinalGEConsLinear (M : Modeler σ H) (s : σ) (cons : H) (con_name : String)
    (lhs : Dbl) (vars : List H) (coeffs : List Dbl) : σ × H :=
  (M.createFinalConsLinear s cons con_name lhs DBL_MAX vars coeffs).2

/-- The inline method `createFinalEQConsLinear` (lines 195-198). -/
def Modeler.createFinalEQConsLinear (M : Modeler σ H) (s : σ) (cons : H) (con_name : String)
    (eq : Dbl) (vars : List H) (coeffs : List Dbl) : σ × H :=
  (M.createFinalConsLinear s cons con_name eq eq vars coeffs).2

/-- The loop of `createColumn` (lines 224-225), `for(int i=0; i<cons.size(); i++)
addCoefLinear(cons[i], *var, coeffs[i], transformed)`, entered at index `i` with `rest` the
elements `cons[i], cons[i+1], ...`.  Reading `coeffs[i]` past the end of `coeffs` is undefined:
the result is then `none`.  The value returned by `addCoefLinear` is not looked at. -/
def Modeler.createColumn.loop (M : Modeler σ H) (var : H) (coeffs : List Dbl)
    (transformed : Bool) : List H → ℕ → σ → Option σ
  | [], _, s => some s
  | c :: rest, i, s =>
    match coeffs[i]? with
    | none => none
    | some k =>
      Modeler.createColumn.loop M var coeffs transformed rest (i + 1)
        (M.addCoefLinear s c var k transformed).2

/-- The variable creation that opens `createColumn` (lines 212-222): the `switch` on `vartype`.
The two non-binary branches leave `ub` to its default `DBL_MAX`. -/
def Modeler.createColumn.create (M : Modeler σ H) (s : σ) (var : H) (var_name : String)
    (objCoeff dualObj : Dbl) (vartype : VarType) (score : Dbl) : σ × H :=
  match vartype with
  | .VARTYPE_BINARY => M.createBinaryColumnVar s var var_name objCoeff dualObj score
  | .VARTYPE_INTEGER => M.createIntColumnVar s var var_name objCoeff dualObj score DBL_MAX
  | _ => M.createPositiveColumnVar s var var_name objCoeff dualObj score DBL_MAX

/-- The inline method `createColumn` (lines 210-226): the new state and the content of `*var`,
or `none` when the loop reads past the end of `coeffs`. -/
def Modeler.createColumn (M : Modeler σ H) (s : σ) (var : H) (var_name : String)
    (objCoeff dualObj : Dbl) (vartype : VarType) (cons : List H) (coeffs : List Dbl)
    (transformed : Bool) (score : Dbl) : Option (σ × H) :=
  (Modeler.createColumn.loop M
      (Modeler.createColumn.create M s var var_name objCoeff dualObj vartype score).2
      coeffs transformed cons 0
      (Modeler.createColumn.create M s var var_name objCoeff dualObj vartype score).1).map
    fun s1 => (s1, (Modeler.createColumn.create M s var var_name objCoeff dualObj vartype score).2)

/-- The virtual method `isInteger` (lines 247-253): `EPSILON` is a constant of `MyTools.h`, which
is not among the sources.  No value results when `getVarValue` delivers none. -/
def Modeler.isInteger (M : Modeler σ H) (EPSILON : Dbl) (s : σ) (var : H) : Option Bool × σ :=
  match (M.getVarValue s var).1 with
  | none => (none, (M.getVarValue s var).2)
  | some value =>
    let fractionalPart : Dbl := (round value : Dbl) - value
    if |fractionalPart| < EPSILON then (some true, (M.getVarValue s var).2)
    else (some false, (M.getVarValue s var).2)

/-- The inline method `getVarValues` (lines 257-262): the vector `values`, entry by entry (an
entry is `none` when `getVarValue` delivered no value for it), and the new state. -/
def Modeler.getVarValues (M : Modeler σ H) : σ → List H → List (Option Dbl) × σ
  | s, [] => ([], s)
  | s, v :: rest =>
    ((M.getVarValue s v).1 :: (Modeler.getVarValues M (M.getVarValue s v).2 rest).1,
     (Modeler.getVarValues M (M.getVarValue s v).2 rest).2)

/-- The inline method `getDuals` (lines 270-275). -/
def Modeler.getDuals (M : Modeler σ H) (transformed : Bool) : σ → List H → List (Option Dbl) × σ
  | s, [] => ([], s)
  | s, c :: rest =>
    ((M.getDual s c transformed).1 ::
       (Modeler.getDuals M transformed (M.getDual s c transformed).2 rest).1,
     (Modeler.getDuals M transformed (M.getDual s c transformed).2 rest).2)

end ModelerMethods

/-- Modelled from the spec: `ScipModeler::createColumnVar` is declared in `ScipModeler.h`, which is
not among the sources, and `ScipModeler.cpp` does not define it.  The spec makes a column "the
composite of createVariable + addCoefficient", so the variable is created by `createVar`;
`dualObj` seeds bookkeeping of the engine that this model does not represent. -/
def ScipModeler.createColumnVar (E : ScipEngine) (p : Process) (var : ScipObject)
    (var_name : String) (objCoeff _dualObj lb ub : Dbl) (vartype : VarType) (score : Dbl) :
    Option SCIP_RETCODE × Process × ScipObject :=
  ScipModeler.createVar E p var var_name objCoeff lb ub vartype score

/-- The class `ScipModeler` as an implementation of `Modeler`, on engine `E`. -/
def ScipModeler.toModeler (E : ScipEngine) : Modeler Process ScipObject where
  createVar := ScipModeler.createVar E
  createColumnVar := ScipModeler.createColumnVar E
  createConsLinear := ScipModeler.createConsLinear E
  createFinalConsLinear := ScipModeler.createFinalConsLinear E
  addCoefLinear := ScipModeler.addCoefLinear E
  getVarValue := ScipModeler.getVarValue E
  getDual := ScipModeler.getDual E

/-! ## Observing the virtual calls of an inline method -/

/-- A call of a pure virtual method of `Modeler`, with its arguments. -/
inductive VirtualCall (H : Type)
  | createVar (var : H) (var_name : String) (objCoeff lb ub : Dbl) (vartype : VarType)
      (score : Dbl)
  | createColumnVar (var : H) (var_name : String) (objCoeff dualObj lb ub : Dbl)
      (vartype : VarType) (score : Dbl)
  | createConsLinear (cons : H) (con_name : String) (lhs rhs : Dbl) (vars : List H)
      (coeffs : List Dbl)
  | createFinalConsLinear (cons : H) (con_name : String) (lhs rhs : Dbl) (vars : List H)
      (coeffs : List Dbl)
  | addCoefLinear (cons var : H) (coeff : Dbl) (transformed : Bool)
  | getVarValue (var : H)
  | getDual (cons : H) (transformed : Bool)
deriving DecidableEq, Repr

/-- The implementation `M` with a journal: every virtual call is written down, in order, before
it is passed on to `M`. -/
def Modeler.traced {σ H : Type} (M : Modeler σ H) : Modeler (σ × List (VirtualCall H)) H where
  createVar := fun s var n o lb ub t sc =>
    ((M.createVar s.1 var n o lb ub t sc).1,
     ((M.createVar s.1 var n o lb ub t sc).2.1, s.2 ++ [.createVar var n o lb ub t sc]),
     (M.createVar s.1 var n o lb ub t sc).2.2)
  createColumnVar := fun s var n o d lb ub t sc =>
    ((M.createColumnVar s.1 var n o d lb ub t sc).1,
     ((M.createColumnVar s.1 var n o d lb ub t sc).2.1,
      s.2 ++ [.createColumnVar var n o d lb ub t sc]),
     (M.createColumnVar s.1 var n o d lb ub t sc).2.2)
  createConsLinear := fun s c n l r vs ks =>
    ((M.createConsLinear s.1 c n l r vs ks).1,
     ((M.createConsLinear s.1 c n l r vs ks).2.1, s.2 ++ [.createConsLinear c n l r vs ks]),
     (M.createConsLinear s.1 c n l r vs ks).2.2)
  createFinalConsLinear := fun s c n l r vs ks =>
    ((M.createFinalConsLinear s.1 c n l r vs ks).1,
     ((M.createFinalConsLinear s.1 c n l r vs ks).2.1,
      s.2 ++ [.createFinalConsLinear c n l r vs ks]),
     (M.createFinalConsLinear s.1 c n l r vs ks).2.2)
  addCoefLinear := fun s c v k t =>
    ((M.addCoefLinear s.1 c v k t).1,
     ((M.addCoefLinear s.1 c v k t).2, s.2 ++ [.addCoefLinear c v k t]))
  getVarValue := fun s v =>
    ((M.getVarValue s.1 v).1, ((M.getVarValue s.1 v).2, s.2 ++ [.getVarValue v]))
  getDual := fun s c t =>
    ((M.getDual s.1 c t).1, ((M.getDual s.1 c t).2, s.2 ++ [.getDual c t]))

/-! ## An engine for the examples -/

/-- The number of `SCIPcreateVar` requests in an engine state. -/
def Scip.countCreateVar (scip : Scip) : ℕ :=
  scip.countP fun e => match e.req with
    | .createVar _ _ _ _ _ _ _ => true
    | _ => false

/-- The number of `SCIPcreateConsLinear` requests in an engine state. -/
def Scip.countCreateCons (scip : Scip) : ℕ :=
  scip.countP fun e => match e.req with
    | .createConsLinear _ _ _ _ _ _ _ _ _ _ _ _ _ _ _ _ => true
    | _ => false

/-- An engine used in the examples.  Infinity is `10 ^ 20`; the k-th variable and the k-th row
get the pointer `k`; a coefficient is refused for a row pointer the engine never gave out, and
every other request is accepted; no row has a transformed counterpart (the lookup succeeds and
leaves the null pointer); every solution value is `2`, the dual of the null row is `0`, every
other dual is `3` and every branch factor is `1`. -/
def exampleEngine : ScipEngine where
  infinity := 100000000000000000000
  retcode := fun scip req =>
    match req with
    | .addCoefLinear cons _ _ =>
      if 1 ≤ cons ∧ cons ≤ Scip.countCreateCons scip then SCIP_OKAY else SCIP_INVALIDDATA
    | _ => SCIP_OKAY
  newVar := fun scip => Scip.countCreateVar scip + 1
  newCons := fun scip => Scip.countCreateCons scip + 1
  getTransformedCons := fun _ _ => (SCIP_OKAY, 0)
  getBestSol := fun _ => 1
  getSolVal := fun _ _ _ => 2
  getDualsolLinear := fun _ cons => if cons = 0 then 0 else 3
  branchfactor := fun _ _ => 1

/-- A process that has built nothing yet: counter `0`, no request sent, empty registry. -/
def Process.fresh : Process :=
  { s_count := 0, self := { scip_ := [], objects_ := [] } }

/-- A handle that was never created by a modeler, standing for the content of a caller's slot
before a creation call. -/
def ScipObject.blank : ScipObject :=
  { name_ := "", id_ := 0, cls := .ScipVar, ptr_ := 0 }

/-- The constructor `ScipModeler::ScipModeler` (lines 10-13): an engine that has received no
request and, from `Modeler(){ }`, an empty registry.  It does not touch `MyObject::s_count`. -/
def ScipModeler.new : ScipModeler :=
  { scip_ := [], objects_ := [] }

/-! ## Reading an engine state -/

/-- The requests sent to the engine between the engine states `before` and `after`. -/
def Scip.sentSince (before after : Scip) : List ScipRequest :=
  (after.drop before.length).map ScipEvent.req

/-- The row handle that `exampleRowCall` leaves in the caller's slot. -/
def exampleRow : ScipObject :=
  { name_ := "c", id_ := 0, cls := .ScipCons, ptr_ := 1 }

/-- The process that `exampleRowCall` leaves: one row requested and added, one handle. -/
def exampleRowProcess : Process :=
  { s_count := 1,
    self :=
      { scip_ :=
          [⟨.createConsLinear "c" 0 [] [] 0 5 true false true true true false true false false
              false, 1⟩,
           ⟨.addCons 1, 1⟩],
        objects_ := [exampleRow] } }

/-- A row handle that belongs to another modeler: its row pointer was never given out by the
engine of the examples. -/
def exampleForeignRow : ScipObject :=
  { name_ := "other", id_ := 7, cls := .ScipCons, ptr_ := 7 }

/-- The example call `createVar(&x, "x", 1, 0, 2, VARTYPE_CONTINUOUS, 0)` on a fresh process. -/
def exampleVarCall : Option SCIP_RETCODE × Process × ScipObject :=
  ScipModeler.createVar exampleEngine Process.fresh ScipObject.blank "x" 1 0 2
    .VARTYPE_CONTINUOUS 0

/-- The variable handle that `exampleVarCall` leaves in the caller's slot. -/
def exampleVar : ScipObject :=
  { name_ := "x", id_ := 0, cls := .ScipVar, ptr_ := 1 }

/-- The process that `exampleVarCall` leaves: one variable requested and added, one handle. -/
def exampleVarProcess : Process :=
  { s_count := 1,
    self :=
      { scip_ :=
          [⟨.createVar "x" 0 2 1 .SCIP_VARTYPE_CONTINUOUS true false, 1⟩, ⟨.addVar 1, 1⟩],
        objects_ := [exampleVar] } }

/-- The example call `createConsLinear(&c, "c", 0, 5, {x}, {1, 2})` after `exampleVarCall`: one
variable and two coefficients. -/
def exampleMismatchCall : Option SCIP_RETCODE × Process × ScipObject :=
  ScipModeler.createConsLinear exampleEngine exampleVarProcess ScipObject.blank "c" 0 5
    [exampleVar] [1, 2]

/-- The row handle that `exampleMismatchCall` leaves in the caller's slot. -/
def exampleMismatchRow : ScipObject :=
  { name_ := "c", id_ := 1, cls := .ScipCons, ptr_ := 1 }

/-- The process that `exampleMismatchCall` leaves: the row has been requested and added, and
its handle is in the registry. -/
def exampleMismatchProcess : Process :=
  { s_count := 2,
    self :=
      { scip_ :=
          [⟨.createVar "x" 0 2 1 .SCIP_VARTYPE_CONTINUOUS true false, 1⟩, ⟨.addVar 1, 1⟩,
           ⟨.createConsLinear "c" 1 [1] [1, 2] 0 5 true false true true true false true false
              false false, 1⟩,
           ⟨.addCons 1, 1⟩],
        objects_ := [exampleVar, exampleMismatchRow] } }

/-- The example call `createVar(&b, "b", 1, 1, 1, VARTYPE_BINARY, 0)` on a fresh process: a
binary variable with both bounds `1`. -/
def exampleBinaryCall : Option SCIP_RETCODE × Process × ScipObject :=
  ScipModeler.createVar exampleEngine Process.fresh ScipObject.blank "b" 1 1 1
    .VARTYPE_BINARY 0

/-- The variable handle that `exampleBinaryCall` leaves in the caller's slot. -/
def exampleBinary : ScipObject :=
  { name_ := "b", id_ := 0, cls := .ScipVar, ptr_ := 1 }

/-- The process that `exampleBinaryCall` leaves: the binary variable has been requested with
bounds `[1, 1]` and added, and its handle is in the registry. -/
def exampleBinaryProcess : Process :=
  { s_count := 1,
    self :=
      { scip_ := [⟨.createVar "b" 1 1 1 .SCIP_VARTYPE_BINARY true false, 1⟩, ⟨.addVar 1, 1⟩],
        objects_ := [exampleBinary] } }

/-- An implementation of the virtual methods, used to exercise the inline methods of `Modeler`:
the state is a table of values, a handle is an index into it, `getVarValue` and `getDual` return
the entry at the index, and the other methods change nothing. -/
def tableModeler : Modeler (List Dbl) ℕ where
  createVar := fun s var _ _ _ _ _ _ => (none, s, var)
  createColumnVar := fun s var _ _ _ _ _ _ _ => (none, s, var)
  createConsLinear := fun s con _ _ _ _ _ => (none, s, con)
  createFinalConsLinear := fun s con _ _ _ _ _ => (none, s, con)
  addCoefLinear := fun s _ _ _ _ => (none, s)
  getVarValue := fun s var => (s[var]?, s)
  getDual := fun s cons _ => (s[cons]?, s)

/-! ## Runs of calls on one modeler -/

/-- A call of a method of `ScipModeler` by a client, with its arguments.  The slot `*var` that a
creation call receives is a variable of the client that holds no handle yet. -/
inductive ModelerCall
  | createVar (var_name : String) (objCoeff lb ub : Dbl) (vartype : VarType) (score : Dbl)
  | createConsLinear (con_name : String) (lhs rhs : Dbl) (vars : List ScipObject)
      (coeffs : List Dbl)
  | createFinalConsLinear (con_name : String) (lhs rhs : Dbl) (vars : List ScipObject)
      (coeffs : List Dbl)
  | createColumn (var_name : String) (objCoeff dualObj : Dbl) (vartype : VarType)
      (cons : List ScipObject) (coeffs : List Dbl) (transformed : Bool) (score : Dbl)
  | addCoefLinear (cons var : ScipObject) (coeff : Dbl) (transformed : Bool)
  | getVarValue (var : ScipObject)
  | getDual (cons : ScipObject) (transformed : Bool)
  | isInteger (EPSILON : Dbl) (var : ScipObject)
  | getTotalCost (var : ScipObject)

/-- A call whose behaviour is defined: `createColumn` must not read past the end of `coeffs`. -/
def ModelerCall.defined : ModelerCall → Prop
  | .createColumn _ _ _ _ cons coeffs _ _ => cons.length ≤ coeffs.length
  | _ => True

/-- The handle a creation call hands back to the client: the content of the slot when the
call created a handle (no engine code was returned), and nothing otherwise. -/
def ModelerCall.handedBack (ret : Option SCIP_RETCODE) (slot : ScipObject) : Option ScipObject :=
  match ret with
  | none => some slot
  | some _ => none

/-- One call on the process `p`: the process after the call and the handle handed back by a
creation, or `none` when the call is undefined.  For `createColumn` the creation is that of its
`createColumnVar` call. -/
def ModelerCall.apply (E : ScipEngine) (p : Process) :
    ModelerCall → Option (Process × Option ScipObject)
  | .createVar var_name objCoeff lb ub vartype score =>
    some
      ((ScipModeler.createVar E p ScipObject.blank var_name objCoeff lb ub vartype score).2.1,
       ModelerCall.handedBack
        (ScipModeler.createVar E p ScipObject.blank var_name objCoeff lb ub vartype score).1
        (ScipModeler.createVar E p ScipObject.blank var_name objCoeff lb ub vartype score).2.2)
  | .createConsLinear con_name lhs rhs vars coeffs =>
    some
      ((ScipModeler.createConsLinear E p ScipObject.blank con_name lhs rhs vars coeffs).2.1,
       ModelerCall.handedBack
        (ScipModeler.createConsLinear E p ScipObject.blank con_name lhs rhs vars coeffs).1
        (ScipModeler.createConsLinear E p ScipObject.blank con_name lhs rhs vars coeffs).2.2)
  | .createFinalConsLinear con_name lhs rhs vars coeffs =>
    some
      ((ScipModeler.createFinalConsLinear E p ScipObject.blank con_name lhs rhs vars
          coeffs).2.1,
       ModelerCall.handedBack
        (ScipModeler.createFinalConsLinear E p ScipObject.blank con_name lhs rhs vars coeffs).1
        (ScipModeler.createFinalConsLinear E p ScipObject.blank con_name lhs rhs vars
          coeffs).2.2)
  | .createColumn var_name objCoeff dualObj vartype cons coeffs transformed score =>
    (Modeler.createColumn (ScipModeler.toModeler E) p ScipObject.blank var_name objCoeff dualObj
        vartype cons coeffs transformed score).map fun r =>
      (r.1,
       ModelerCall.handedBack
        (ScipModeler.createColumnVar E p ScipObject.blank var_name objCoeff dualObj 0
          (if vartype = .VARTYPE_BINARY then 1 else DBL_MAX) vartype score).1
        r.2)
  | .addCoefLinear cons var coeff transformed =>
    some ((ScipModeler.addCoefLinear E p cons var coeff transformed).2, none)
  | .getVarValue var => some ((ScipModeler.getVarValue E p var).2, none)
  | .getDual cons transformed => some ((ScipModeler.getDual E p cons transformed).2, none)
  | .isInteger EPSILON var =>
    some ((Modeler.isInteger (ScipModeler.toModeler E) EPSILON p var).2, none)
  | .getTotalCost var => some ((ScipModeler.getTotalCost E p var).2, none)

/-- A run of calls, in order: the process after the run and the handles handed back by its
creations, oldest first; `none` when a call of the run is undefined. -/
def ModelerCall.run (E : ScipEngine) : Process → List ModelerCall →
    Option (Process × List ScipObject)
  | p, [] => some (p, [])
  | p, call :: rest =>
    match ModelerCall.apply E p call with
    | none => none
    | some r =>
      match ModelerCall.run E r.1 rest with
      | none => none
      | some q => some (q.1, r.2.toList ++ q.2)

/-! ## More example calls -/

/-- The row handle left by `createLEConsLinear(&c, "c", 5, {x}, {1})` after `exampleVarCall`. -/
def exampleLERow : ScipObject :=
  { name_ := "c", id_ := 1, cls := .ScipCons, ptr_ := 1 }

/-- The process left by `createLEConsLinear(&c, "c", 5, {x}, {1})` after `exampleVarCall`: the
row has been requested with left-hand side `DBL_MIN` and added. -/
def exampleLEProcess : Process :=
  { s_count := 2,
    self :=
      { scip_ :=
          [⟨.createVar "x" 0 2 1 .SCIP_VARTYPE_CONTINUOUS true false, 1⟩, ⟨.addVar 1, 1⟩,
           ⟨.createConsLinear "c" 1 [1] [1] DBL_MIN 5 true false true true true false true false
              false false, 1⟩,
           ⟨.addCons 1, 1⟩],
        objects_ := [exampleVar, exampleLERow] } }

/-- The process left by `createGEConsLinear(&c, "c", 5, {x}, {1})` after `exampleVarCall`: the
row has been requested with right-hand side `DBL_MAX` and added. -/
def exampleGEProcess : Process :=
  { s_count := 2,
    self :=
      { scip_ :=
          [⟨.createVar "x" 0 2 1 .SCIP_VARTYPE_CONTINUOUS true false, 1⟩, ⟨.addVar 1, 1⟩,
           ⟨.createConsLinear "c" 1 [1] [1] 5 DBL_MAX true false true true true false true false
              false false, 1⟩,
           ⟨.addCons 1, 1⟩],
        objects_ := [exampleVar, exampleLERow] } }

theorem DBL_MIN_pos : 0 < DBL_MIN := by
  unfold DBL_MIN; positivity

theorem one_lt_two_pow_cast (n : ℕ) (hn : n ≠ 0) : (1 : ℚ) < ((2 ^ n : ℕ) : ℚ) :=
  Nat.one_lt_cast.mpr (Nat.one_lt_two_pow hn)

theorem two_lt_mantissa_mul_two_pow (n : ℕ) : (2 : ℚ) < (((2 ^ 53 - 1) * 2 ^ n : ℕ) : ℚ) := by
  have h1 : 1 ≤ 2 ^ n := Nat.one_le_two_pow
  have h2 : (2 : ℕ) < (2 ^ 53 - 1) * 2 ^ n :=
    calc (2 : ℕ) < (2 ^ 53 - 1) * 1 := by norm_num
      _ ≤ (2 ^ 53 - 1) * 2 ^ n := Nat.mul_le_mul_left _ h1
  exact_mod_cast h2

theorem DBL_MIN_lt_one : DBL_MIN < 1 := by
  unfold DBL_MIN
  rw [div_lt_one (by positivity)]
  exact one_lt_two_pow_cast 1022 (by decide)

theorem two_lt_DBL_MAX : 2 < DBL_MAX := by
  unfold DBL_MAX
  exact two_lt_mantissa_mul_two_pow 971

theorem one_lt_DBL_MAX : 1 < DBL_MAX := lt_trans one_lt_two two_lt_DBL_MAX

theorem two_ne_DBL_MAX : (2 : Dbl) ≠ DBL_MAX := ne_of_lt two_lt_DBL_MAX

theorem infinity_lt_mantissa_mul_two_pow (n : ℕ) (hn : 14 ≤ n) :
    (100000000000000000000 : ℚ) < (((2 ^ 53 - 1) * 2 ^ n : ℕ) : ℚ) := by
  have h1 : 2 ^ 14 ≤ 2 ^ n := Nat.pow_le_pow_right (by norm_num) hn
  have h2 : (100000000000000000000 : ℕ) < (2 ^ 53 - 1) * 2 ^ n :=
    calc (100000000000000000000 : ℕ) < (2 ^ 53 - 1) * 2 ^ 14 := by norm_num
      _ ≤ (2 ^ 53 - 1) * 2 ^ n := Nat.mul_le_mul_left _ h1
  exact_mod_cast h2

theorem exampleEngine_infinity_lt_DBL_MAX : exampleEngine.infinity < DBL_MAX := by
  unfold DBL_MAX
  exact infinity_lt_mantissa_mul_two_pow 971 (by decide)

theorem zero_ne_DBL_MIN : (0 : Dbl) ≠ DBL_MIN := ne_of_lt DBL_MIN_pos

theorem one_ne_DBL_MIN : (1 : Dbl) ≠ DBL_MIN := ne_of_gt DBL_MIN_lt_one

theorem one_ne_DBL_MAX : (1 : Dbl) ≠ DBL_MAX := ne_of_lt one_lt_DBL_MAX

theorem zero_ne_DBL_MAX : (0 : Dbl) ≠ DBL_MAX := ne_of_lt (lt_trans one_pos one_lt_DBL_MAX)

/-! ## What the methods of `ScipModeler` do to the state -/

theorem ScipModeler.addCoefLinear_state (E : ScipEngine) (p : Process) (cons var : ScipObject)
    (coeff : Dbl) (transformed : Bool) :
    ∃ e : ScipEvent, (∃ c, e.req = .addCoefLinear c var.ptr_ coeff) ∧
      (ScipModeler.addCoefLinear E p cons var coeff transformed).2 =
        { p with self := { p.self with scip_ := p.self.scip_ ++ [e] } } := by
  let c : SCIP_CONS :=
    if transformed then (ScipModeler.getTransformedCons E p (ScipCons.get cons)).2
    else ScipCons.get cons
  refine ⟨⟨.addCoefLinear c var.ptr_ coeff,
    E.retcode p.self.scip_ (.addCoefLinear c var.ptr_ coeff)⟩, ⟨c, rfl⟩, ?_⟩
  simp only [ScipModeler.addCoefLinear, SCIPaddCoefLinear, Scip.send, ScipVar.get, c]
  split_ifs <;> rfl

theorem ScipModeler.createColumn_loop (E : ScipEngine) (var : ScipObject) (coeffs : List Dbl)
    (transformed : Bool) :
    ∀ (rest : List ScipObject) (i : ℕ) (p : Process), rest.length + i ≤ coeffs.length →
      ∃ evs : List ScipEvent,
        Modeler.createColumn.loop (ScipModeler.toModeler E) var coeffs transformed rest i p =
          some { p with self := { p.self with scip_ := p.self.scip_ ++ evs } } ∧
        evs.length = rest.length ∧
        ∀ e ∈ evs, ∃ c k, e.req = .addCoefLinear c var.ptr_ k := by
  intro rest
  induction rest with
  | nil =>
    intro i p _
    exact ⟨[], by simp [Modeler.createColumn.loop], rfl, by simp⟩
  | cons c rest ih =>
    intro i p h
    have hi : i < coeffs.length := by
      simp only [List.length_cons] at h
      omega
    obtain ⟨e, ⟨c0, he⟩, hstate⟩ :=
      ScipModeler.addCoefLinear_state E p c var coeffs[i] transformed
    have hrest : rest.length + (i + 1) ≤ coeffs.length := by
      simp only [List.length_cons] at h
      omega
    obtain ⟨evs, hloop, hlen, hall⟩ :=
      ih (i + 1) { p with self := { p.self with scip_ := p.self.scip_ ++ [e] } } hrest
    refine ⟨e :: evs, ?_, by simp [hlen], ?_⟩
    · simp only [Modeler.createColumn.loop, List.getElem?_eq_getElem hi]
      have : ((ScipModeler.toModeler E).addCoefLinear p c var coeffs[i] transformed).2 =
          { p with self := { p.self with scip_ := p.self.scip_ ++ [e] } } := hstate
      rw [this, hloop]
      simp
    · intro e1 he1
      rcases List.mem_cons.mp he1 with h1 | h1
      · exact ⟨c0, coeffs[i], h1 ▸ he⟩
      · exact hall e1 h1

theorem ScipModeler.createVar_scip (E : ScipEngine) (p : Process) (var : ScipObject)
    (var_name : String) (objCoeff lb ub : Dbl) (vartype : VarType) (score : Dbl) :
    (ScipModeler.createVar E p var var_name objCoeff lb ub vartype score).2.1.self.scip_ =
      p.self.scip_ ++
        ((⟨.createVar var_name (ScipModeler.createVar.lb E lb) (ScipModeler.createVar.ub E ub)
              objCoeff (ScipModeler.createVar.type vartype) true false,
            (SCIPcreateVar E p.self.scip_ var_name (ScipModeler.createVar.lb E lb)
              (ScipModeler.createVar.ub E ub) objCoeff (ScipModeler.createVar.type vartype)
              true false).1⟩ : ScipEvent) ::
          if (SCIPcreateVar E p.self.scip_ var_name (ScipModeler.createVar.lb E lb)
              (ScipModeler.createVar.ub E ub) objCoeff (ScipModeler.createVar.type vartype)
              true false).1 = SCIP_OKAY then
            [⟨if score > 0 then .addPricedVar (E.newVar p.self.scip_) score
                else .addVar (E.newVar p.self.scip_),
              E.retcode
                (SCIPcreateVar E p.self.scip_ var_name (ScipModeler.createVar.lb E lb)
                  (ScipModeler.createVar.ub E ub) objCoeff (ScipModeler.createVar.type vartype)
                  true false).2.1
                (if score > 0 then .addPricedVar (E.newVar p.self.scip_) score
                  else .addVar (E.newVar p.self.scip_))⟩]
          else []) := by
  simp only [ScipModeler.createVar, SCIPcreateVar, SCIPaddPricedVar, SCIPaddVar, Scip.send]
  split_ifs <;> simp_all

theorem ScipModeler.createVar_registry (E : ScipEngine) (p : Process) (var : ScipObject)
    (var_name : String) (objCoeff lb ub : Dbl) (vartype : VarType) (score : Dbl) :
    ((ScipModeler.createVar E p var var_name objCoeff lb ub vartype score).1 = none ∧
      (ScipModeler.createVar E p var var_name objCoeff lb ub vartype score).2.2 =
        (ScipVar.new p.s_count var_name (E.newVar p.self.scip_)).1 ∧
      (ScipModeler.createVar E p var var_name objCoeff lb ub vartype score).2.1.s_count =
        (p.s_count + 1) % UINT_RANGE ∧
      (ScipModeler.createVar E p var var_name objCoeff lb ub vartype score).2.1.self.objects_ =
        p.self.objects_ ++
          [(ScipModeler.createVar E p var var_name objCoeff lb ub vartype score).2.2]) ∨
    ((∃ rc, rc ≠ SCIP_OKAY ∧
        (ScipModeler.createVar E p var var_name objCoeff lb ub vartype score).1 = some rc) ∧
      (ScipModeler.createVar E p var var_name objCoeff lb ub vartype score).2.2 = var ∧
      (ScipModeler.createVar E p var var_name objCoeff lb ub vartype score).2.1.s_count =
        p.s_count ∧
      (ScipModeler.createVar E p var var_name objCoeff lb ub vartype score).2.1.self.objects_ =
        p.self.objects_) := by
  simp only [ScipModeler.createVar, SCIPcreateVar, SCIPaddPricedVar, SCIPaddVar, Scip.send,
    ScipVar.new, MyObject.new]
  split_ifs <;> simp_all

theorem ScipModeler.createColumn_create (E : ScipEngine) (p : Process) (var : ScipObject)
    (var_name : String) (objCoeff dualObj : Dbl) (vartype : VarType) (score : Dbl) :
    Modeler.createColumn.create (ScipModeler.toModeler E) p var var_name objCoeff dualObj
        vartype score =
      (ScipModeler.createVar E p var var_name objCoeff 0
        (if vartype = .VARTYPE_BINARY then 1 else DBL_MAX) vartype score).2 := by
  cases vartype <;>
    simp [Modeler.createColumn.create, Modeler.createBinaryColumnVar,
      Modeler.createIntColumnVar, Modeler.createPositiveColumnVar, ScipModeler.toModeler,
      ScipModeler.createColumnVar]

theorem Scip.sentSince_append (before : Scip) (evs : List ScipEvent) :
    Scip.sentSince before (before ++ evs) = evs.map ScipEvent.req := by
  simp [Scip.sentSince]

theorem ScipModeler.createVar_ret (E : ScipEngine) (p : Process) (var : ScipObject)
    (var_name : String) (objCoeff lb ub : Dbl) (vartype : VarType) (score : Dbl) :
    (ScipModeler.createVar E p var var_name objCoeff lb ub vartype score).1 = none ∨
    ∃ e ∈ (ScipModeler.createVar E p var var_name objCoeff lb ub vartype
        score).2.1.self.scip_.drop p.self.scip_.length,
      e.rc ≠ SCIP_OKAY ∧
      (ScipModeler.createVar E p var var_name objCoeff lb ub vartype score).1 = some e.rc := by
  simp only [ScipModeler.createVar, SCIPcreateVar, SCIPaddPricedVar, SCIPaddVar, Scip.send]
  split_ifs <;> simp_all

theorem ScipModeler.createConsLinear_registry (E : ScipEngine) (p : Process)
    (con : ScipObject) (con_name : String) (lhs rhs : Dbl) (vars : List ScipObject)
    (coeffs : List Dbl)
    (h : (ScipModeler.createConsLinear E p con con_name lhs rhs vars coeffs).1 = none) :
    (ScipModeler.createConsLinear E p con con_name lhs rhs vars coeffs).2.2 =
        (ScipCons.new p.s_count con_name (E.newCons p.self.scip_)).1 ∧
      (ScipModeler.createConsLinear E p con con_name lhs rhs vars coeffs).2.1.s_count =
        (p.s_count + 1) % UINT_RANGE ∧
      (ScipModeler.createConsLinear E p con con_name lhs rhs vars coeffs).2.1.self.objects_ =
        p.self.objects_ ++
          [(ScipModeler.createConsLinear E p con con_name lhs rhs vars coeffs).2.2] := by
  revert h
  simp only [ScipModeler.createConsLinear, SCIPcreateConsLinear, SCIPaddCons, Scip.send,
    ScipCons.new, MyObject.new]
  split_ifs <;> simp_all

theorem ScipModeler.createConsLinear_scip (E : ScipEngine) (p : Process) (con : ScipObject)
    (con_name : String) (lhs rhs : Dbl) (vars : List ScipObject) (coeffs : List Dbl) :
    (ScipModeler.createConsLinear E p con con_name lhs rhs vars coeffs).2.1.self.scip_ =
      p.self.scip_ ++
        ((⟨.createConsLinear con_name vars.length (vars.map ScipVar.get) coeffs lhs rhs
              true false true true true false true false false false,
            E.retcode p.self.scip_
              (.createConsLinear con_name vars.length (vars.map ScipVar.get) coeffs lhs rhs
                true false true true true false true false false false)⟩ : ScipEvent) ::
          if E.retcode p.self.scip_
              (.createConsLinear con_name vars.length (vars.map ScipVar.get) coeffs lhs rhs
                true false true true true false true false false false) = SCIP_OKAY then
            [⟨.addCons (E.newCons p.self.scip_),
              E.retcode
                (p.self.scip_ ++
                  [⟨.createConsLinear con_name vars.length (vars.map ScipVar.get) coeffs lhs rhs
                      true false true true true false true false false false,
                    E.retcode p.self.scip_
                      (.createConsLinear con_name vars.length (vars.map ScipVar.get) coeffs lhs
                        rhs true false true true true false true false false false)⟩])
                (.addCons (E.newCons p.self.scip_))⟩]
          else []) := by
  simp only [ScipModeler.createConsLinear, SCIPcreateConsLinear, SCIPaddCons, Scip.send,
    List.length_map]
  split_ifs <;> simp_all

theorem ScipModeler.createFinalConsLinear_scip (E : ScipEngine) (p : Process)
    (con : ScipObject) (con_name : String) (lhs rhs : Dbl) (vars : List ScipObject)
    (coeffs : List Dbl) :
    (ScipModeler.createFinalConsLinear E p con con_name lhs rhs vars coeffs).2.1.self.scip_ =
      p.self.scip_ ++
        ((⟨.createConsLinear con_name vars.length (vars.map ScipVar.get) coeffs lhs rhs
              true false true true true false false false false false,
            E.retcode p.self.scip_
              (.createConsLinear con_name vars.length (vars.map ScipVar.get) coeffs lhs rhs
                true false true true true false false false false false)⟩ : ScipEvent) ::
          if E.retcode p.self.scip_
              (.createConsLinear con_name vars.length (vars.map ScipVar.get) coeffs lhs rhs
                true false true true true false false false false false) = SCIP_OKAY then
            [⟨.addCons (E.newCons p.self.scip_),
              E.retcode
                (p.self.scip_ ++
                  [⟨.createConsLinear con_name vars.length (vars.map ScipVar.get) coeffs lhs rhs
                      true false true true true false false false false false,
                    E.retcode p.self.scip_
                      (.createConsLinear con_name vars.length (vars.map ScipVar.get) coeffs lhs
                        rhs true false true true true false false false false false)⟩])
                (.addCons (E.newCons p.self.scip_))⟩]
          else []) := by
  simp only [ScipModeler.createFinalConsLinear, SCIPcreateConsLinear, SCIPaddCons, Scip.send,
    List.length_map]
  split_ifs <;> simp_all

/-! ## The example calls, evaluated -/

theorem exampleVarCall_eq : exampleVarCall = (none, exampleVarProcess, exampleVar) := by
  simp only [exampleVarCall, ScipModeler.createVar, ScipModeler.createVar.lb,
    ScipModeler.createVar.ub, ScipModeler.createVar.type]
  simp only [zero_ne_DBL_MIN, two_ne_DBL_MAX, if_false]
  simp [exampleVarProcess, exampleVar, SCIPcreateVar, SCIPaddVar, SCIPaddPricedVar, Scip.send,
    exampleEngine, Process.fresh, SCIP_OKAY, Scip.countCreateVar, ScipVar.new, MyObject.new,
    strncpy255, UINT_RANGE]

theorem exampleMismatchCall_eq :
    exampleMismatchCall = (none, exampleMismatchProcess, exampleMismatchRow) := by
  simp [exampleMismatchCall, exampleMismatchProcess, exampleMismatchRow, exampleVarProcess,
    exampleVar, ScipModeler.createConsLinear, SCIPcreateConsLinear, SCIPaddCons, Scip.send,
    exampleEngine, SCIP_OKAY, Scip.countCreateCons, ScipCons.new, ScipVar.get, MyObject.new,
    strncpy255, UINT_RANGE]

theorem exampleBinaryCall_eq :
    exampleBinaryCall = (none, exampleBinaryProcess, exampleBinary) := by
  simp only [exampleBinaryCall, ScipModeler.createVar, ScipModeler.createVar.lb,
    ScipModeler.createVar.ub, ScipModeler.createVar.type]
  simp only [one_ne_DBL_MIN, one_ne_DBL_MAX, if_false]
  simp [exampleBinaryProcess, exampleBinary, SCIPcreateVar, SCIPaddVar, SCIPaddPricedVar,
    Scip.send, exampleEngine, Process.fresh, SCIP_OKAY, Scip.countCreateVar, ScipVar.new,
    MyObject.new, strncpy255, UINT_RANGE]

theorem ScipModeler.createConsLinear_example (lhs rhs : Dbl) :
    ScipModeler.createConsLinear exampleEngine exampleVarProcess ScipObject.blank "c" lhs rhs
        [exampleVar] [1] =
      (none,
       { s_count := 2,
         self :=
          { scip_ := exampleVarProcess.self.scip_ ++
              [⟨.createConsLinear "c" 1 [1] [1] lhs rhs true false true true true false true
                  false false false, 1⟩,
               ⟨.addCons 1, 1⟩],
            objects_ := [exampleVar, exampleLERow] } },
       exampleLERow) := by
  simp [exampleLERow, exampleVarProcess, exampleVar, ScipModeler.createConsLinear,
    SCIPcreateConsLinear, SCIPaddCons, Scip.send, exampleEngine, SCIP_OKAY,
    Scip.countCreateCons, ScipCons.new, ScipVar.get, MyObject.new, strncpy255, UINT_RANGE]

/-! ## C1: `createColumn` is not atomic -/

/-- C2, counterexample.  On the example engine, after the variable `x` has been created, the call
`createConsLinear(&c, "c", 0, 5, {x}, {1, 2})` has one variable and two coefficients; it does not
fail (no code is returned), the row is requested with `nvars = 1`, accepted and added, and its
handle is appended to the registry. -/
theorem createConsLinear_accepts_mismatch :
    exampleVarCall = (none, exampleVarProcess, exampleVar) ∧
    [exampleVar].length ≠ ([1, 2] : List Dbl).length ∧
    ScipModeler.createConsLinear exampleEngine exampleVarProcess ScipObject.blank "c" 0 5
        [exampleVar] [1, 2] = (none, exampleMismatchProcess, exampleMismatchRow) ∧
    Scip.accepted exampleMismatchProcess.self.scip_ =
      Scip.accepted exampleVarProcess.self.scip_ ++
        [.createConsLinear "c" 1 [1] [1, 2] 0 5 true false true true true false true false
            false false,
         .addCons 1] ∧
    exampleMismatchProcess.self.objects_ =
      exampleVarProcess.self.objects_ ++ [exampleMismatchRow] := by
  refine ⟨exampleVarCall_eq, by decide, exampleMismatchCall_eq, ?_, ?_⟩
  · simp [exampleMismatchProcess, exampleVarProcess, Scip.accepted, SCIP_OKAY]
  · simp [exampleMismatchProcess, exampleVarProcess]

/-- C2, amended.  `createConsLinear` and `createFinalConsLinear` never compare `vars.size()` with
`coeffs.size()` and have no length error.  For `coeffs` at least as long as `vars`, each sends
`SCIPcreateConsLinear` with `nvars = vars.size()` and the two arrays as given, then `SCIPaddCons`
when the engine accepted the row; the value returned is the code of the first of the two
requests that the engine refused, and none when it accepted both; exactly in the latter case one
handle, wrapping the new row, is appended to `objects_`. -/
theorem createConsLinear_fails_only_by_engine (E : ScipEngine) (p : Process) (con : ScipObject)
    (con_name : String) (lhs rhs : Dbl) (vars : List ScipObject) (coeffs : List Dbl)
    (modifiable : Bool) (hlen : vars.length ≤ coeffs.length) :
    let r := if modifiable then ScipModeler.createConsLinear E p con con_name lhs rhs vars coeffs
      else ScipModeler.createFinalConsLinear E p con con_name lhs rhs vars coeffs
    let req := ScipRequest.createConsLinear con_name vars.length (vars.map ScipVar.get) coeffs
      lhs rhs true false true true true false modifiable false false false
    let rc1 := E.retcode p.self.scip_ req
    let rc2 := E.retcode (p.self.scip_ ++ [⟨req, rc1⟩]) (.addCons (E.newCons p.self.scip_))
    r.2.1.self.scip_ =
        p.self.scip_ ++ (⟨req, rc1⟩ ::
          if rc1 = SCIP_OKAY then [⟨.addCons (E.newCons p.self.scip_), rc2⟩] else []) ∧
      r.1 = (if rc1 = SCIP_OKAY then (if rc2 = SCIP_OKAY then none else some rc2)
        else some rc1) ∧
      (r.1 = none →
        r.2.1.self.objects_ = p.self.objects_ ++ [r.2.2] ∧
          r.2.2.ptr_ = E.newCons p.self.scip_) ∧
      (r.1 ≠ none → r.2.1.self.objects_ = p.self.objects_ ∧ r.2.2 = con) := by
  have _ := hlen
  cases modifiable <;>
    simp only [ScipModeler.createConsLinear, ScipModeler.createFinalConsLinear,
      SCIPcreateConsLinear, SCIPaddCons, Scip.send, ScipCons.new, MyObject.new,
      List.length_map] <;>
    split_ifs <;> simp_all

/-- C2, the amended statement at the example call with one variable and two coefficients: no
code is returned and the handle of the new row is appended. -/
theorem createConsLinear_fails_only_by_engine_witness :
    [exampleVar].length ≤ ([1, 2] : List Dbl).length ∧
    ((ScipModeler.createConsLinear exampleEngine exampleVarProcess ScipObject.blank "c" 0 5
        [exampleVar] [1, 2]).1 = none →
      (ScipModeler.createConsLinear exampleEngine exampleVarProcess ScipObject.blank "c" 0 5
          [exampleVar] [1, 2]).2.1.self.objects_ =
        exampleVarProcess.self.objects_ ++
          [(ScipModeler.createConsLinear exampleEngine exampleVarProcess ScipObject.blank "c"
            0 5 [exampleVar] [1, 2]).2.2] ∧
      (ScipModeler.createConsLinear exampleEngine exampleVarProcess ScipObject.blank "c" 0 5
          [exampleVar] [1, 2]).2.2.ptr_ = exampleEngine.newCons exampleVarProcess.self.scip_) :=
  ⟨by decide,
   (createConsLinear_fails_only_by_engine exampleEngine exampleVarProcess ScipObject.blank "c"
      0 5 [exampleVar] [1, 2] true (by decide)).2.2.1⟩

/-! ## C3: the bounds of a binary variable -/

/-- C3, counterexample.  On the example engine the call
`createVar(&b, "b", 1, 1, 1, VARTYPE_BINARY, 0)`, a binary variable with lower and upper bound
`1`, does not fail: no code is returned, the engine is asked for a binary variable with bounds
`[1, 1]`, accepts it, and the handle is registered. -/
theorem createVar_binary_bounds_unchecked :
    ScipModeler.createVar exampleEngine Process.fresh ScipObject.blank "b" 1 1 1
        .VARTYPE_BINARY 0 = (none, exampleBinaryProcess, exampleBinary) ∧
    Scip.accepted exampleBinaryProcess.self.scip_ =
      [.createVar "b" 1 1 1 .SCIP_VARTYPE_BINARY true false, .addVar 1] ∧
    exampleBinaryProcess.self.objects_ = [exampleBinary] ∧
    (1 : Dbl) ≠ 0 := by
  refine ⟨exampleBinaryCall_eq, ?_, rfl, one_ne_zero⟩
  simp [exampleBinaryProcess, Scip.accepted, SCIP_OKAY]

/-- C3, amended.  `createBinaryVar` and `createBinaryColumnVar` always ask for kind binary with
lower bound `0` and upper bound `1`.  `createVar` called directly with `VARTYPE_BINARY` does not
look at the bounds and has no kind error: the engine is asked for a binary variable with the
caller's `lb` and `ub` (`DBL_MIN` and `DBL_MAX` replaced by minus and plus the engine's infinity),
and a value is returned only when it is a code other than `SCIP_OKAY` that the engine gave to a
request of this call. -/
theorem createVar_binary_bounds_as_given (E : ScipEngine) (p : Process) (var : ScipObject)
    (var_name : String) (objCoeff dualObj lb ub score : Dbl) :
    (Scip.sentSince p.self.scip_
        (ScipModeler.createVar E p var var_name objCoeff lb ub .VARTYPE_BINARY
          score).2.1.self.scip_).head? =
      some (.createVar var_name (if lb = DBL_MIN then -E.infinity else lb)
        (if ub = DBL_MAX then E.infinity else ub) objCoeff .SCIP_VARTYPE_BINARY true false) ∧
    ((ScipModeler.createVar E p var var_name objCoeff lb ub .VARTYPE_BINARY score).1 = none ∨
      ∃ e ∈ (ScipModeler.createVar E p var var_name objCoeff lb ub .VARTYPE_BINARY
          score).2.1.self.scip_.drop p.self.scip_.length,
        e.rc ≠ SCIP_OKAY ∧
        (ScipModeler.createVar E p var var_name objCoeff lb ub .VARTYPE_BINARY score).1 =
          some e.rc) ∧
    (Scip.sentSince p.self.scip_
        (Modeler.createBinaryVar (ScipModeler.toModeler E) p var var_name objCoeff
          score).1.self.scip_).head? =
      some (.createVar var_name 0 1 objCoeff .SCIP_VARTYPE_BINARY true false) ∧
    ∀ {σ H : Type} (M : Modeler σ H) (s : σ) (v : H),
      (Modeler.createBinaryColumnVar M.traced (s, []) v var_name objCoeff dualObj score).1.2 =
        [.createColumnVar v var_name objCoeff dualObj 0 1 .VARTYPE_BINARY score] := by
  refine ⟨?_, ScipModeler.createVar_ret E p var var_name objCoeff lb ub _ score, ?_, ?_⟩
  · rw [ScipModeler.createVar_scip, Scip.sentSince_append]
    simp [ScipModeler.createVar.lb, ScipModeler.createVar.ub, ScipModeler.createVar.type]
  · simp only [Modeler.createBinaryVar, ScipModeler.toModeler]
    rw [ScipModeler.createVar_scip, Scip.sentSince_append]
    simp [ScipModeler.createVar.lb, ScipModeler.createVar.ub, ScipModeler.createVar.type,
      zero_ne_DBL_MIN, one_ne_DBL_MAX]
  · intro σ H M s v
    simp [Modeler.createBinaryColumnVar, Modeler.traced]

/-! ## C4: the calls made by `createColumn` -/

theorem Modeler.createColumn_loop_traced {σ H : Type} (M : Modeler σ H) (var : H)
    (coeffs : List Dbl) (transformed : Bool) :
    ∀ (rest : List H) (i : ℕ) (s : σ) (tr : List (VirtualCall H)),
      rest.length + i ≤ coeffs.length →
      ∃ s1 : σ,
        Modeler.createColumn.loop M var coeffs transformed rest i s = some s1 ∧
        Modeler.createColumn.loop M.traced var coeffs transformed rest i (s, tr) =
          some (s1, tr ++ List.zipWith (fun c k => VirtualCall.addCoefLinear c var k transformed)
            rest (coeffs.drop i)) := by
  intro rest
  induction rest with
  | nil =>
    intro i s tr _
    exact ⟨s, by simp [Modeler.createColumn.loop], by simp [Modeler.createColumn.loop]⟩
  | cons c rest ih =>
    intro i s tr h
    have hi : i < coeffs.length := by
      simp only [List.length_cons] at h
      omega
    have hrest : rest.length + (i + 1) ≤ coeffs.length := by
      simp only [List.length_cons] at h
      omega
    obtain ⟨s1, h1, h2⟩ := ih (i + 1) (M.addCoefLinear s c var coeffs[i] transformed).2
      (tr ++ [VirtualCall.addCoefLinear c var coeffs[i] transformed]) hrest
    refine ⟨s1, ?_, ?_⟩
    · simp only [Modeler.createColumn.loop, List.getElem?_eq_getElem hi]
      exact h1
    · simp only [Modeler.createColumn.loop, List.getElem?_eq_getElem hi]
      have hstep : (M.traced.addCoefLinear (s, tr) c var coeffs[i] transformed).2 =
          ((M.addCoefLinear s c var coeffs[i] transformed).2,
            tr ++ [VirtualCall.addCoefLinear c var coeffs[i] transformed]) := rfl
      rw [hstep, h2, List.drop_eq_getElem_cons hi, List.zipWith_cons_cons, List.append_assoc,
        List.singleton_append]

/-- C4.  For every implementation of the virtual methods and lists `cons`, `coeffs` of equal
length, `createColumn` makes exactly these virtual calls, in this order: one `createColumnVar`
with kind `vartype`, lower bound `0`, upper bound `1` for a binary column and `DBL_MAX`
otherwise, and the given `objCoeff`, `dualObj` and `score`; then `addCoefLinear(cons[i], newVar,
coeffs[i], transformed)` for `i = 0, 1, ...`, where `newVar` is the handle that `createColumnVar`
left in `*var`.  The call completes, in the state the untraced implementation reaches. -/
theorem createColumn_calls {σ H : Type} (M : Modeler σ H) (s : σ) (var : H) (var_name : String)
    (objCoeff dualObj : Dbl) (vartype : VarType) (cons : List H) (coeffs : List Dbl)
    (transformed : Bool) (score : Dbl) (hlen : cons.length = coeffs.length) :
    ∃ s1 : σ,
      Modeler.createColumn M s var var_name objCoeff dualObj vartype cons coeffs transformed
          score =
        some (s1,
          (M.createColumnVar s var var_name objCoeff dualObj 0
            (if vartype = .VARTYPE_BINARY then 1 else DBL_MAX) vartype score).2.2) ∧
      Modeler.createColumn M.traced (s, []) var var_name objCoeff dualObj vartype cons coeffs
          transformed score =
        some
          ((s1,
            VirtualCall.createColumnVar var var_name objCoeff dualObj 0
                (if vartype = .VARTYPE_BINARY then 1 else DBL_MAX) vartype score ::
              List.zipWith
                (fun c k => VirtualCall.addCoefLinear c
                  (M.createColumnVar s var var_name objCoeff dualObj 0
                    (if vartype = .VARTYPE_BINARY then 1 else DBL_MAX) vartype score).2.2
                  k transformed)
                cons coeffs),
           (M.createColumnVar s var var_name objCoeff dualObj 0
            (if vartype = .VARTYPE_BINARY then 1 else DBL_MAX) vartype score).2.2) := by
  have hM : Modeler.createColumn.create M s var var_name objCoeff dualObj vartype score =
      (M.createColumnVar s var var_name objCoeff dualObj 0
        (if vartype = .VARTYPE_BINARY then 1 else DBL_MAX) vartype score).2 := by
    cases vartype <;>
      simp [Modeler.createColumn.create, Modeler.createBinaryColumnVar,
        Modeler.createIntColumnVar, Modeler.createPositiveColumnVar]
  have hT : Modeler.createColumn.create M.traced (s, []) var var_name objCoeff dualObj vartype
        score =
      (((M.createColumnVar s var var_name objCoeff dualObj 0
          (if vartype = .VARTYPE_BINARY then 1 else DBL_MAX) vartype score).2.1,
        [VirtualCall.createColumnVar var var_name objCoeff dualObj 0
          (if vartype = .VARTYPE_BINARY then 1 else DBL_MAX) vartype score]),
       (M.createColumnVar s var var_name objCoeff dualObj 0
          (if vartype = .VARTYPE_BINARY then 1 else DBL_MAX) vartype score).2.2) := by
    cases vartype <;>
      simp [Modeler.createColumn.create, Modeler.createBinaryColumnVar,
        Modeler.createIntColumnVar, Modeler.createPositiveColumnVar, Modeler.traced]
  obtain ⟨s1, h1, h2⟩ := Modeler.createColumn_loop_traced M
    (M.createColumnVar s var var_name objCoeff dualObj 0
      (if vartype = .VARTYPE_BINARY then 1 else DBL_MAX) vartype score).2.2 coeffs transformed
    cons 0
    (M.createColumnVar s var var_name objCoeff dualObj 0
      (if vartype = .VARTYPE_BINARY then 1 else DBL_MAX) vartype score).2.1
    [VirtualCall.createColumnVar var var_name objCoeff dualObj 0
      (if vartype = .VARTYPE_BINARY then 1 else DBL_MAX) vartype score]
    (by simp [hlen])
  refine ⟨s1, ?_, ?_⟩
  · unfold Modeler.createColumn
    rw [hM, h1]
    rfl
  · unfold Modeler.createColumn
    rw [hT, h2]
    simp

/-- C4 at the example call: a binary column with two attachments on the SCIP binding. -/
theorem createColumn_calls_witness :
    [exampleRow, exampleForeignRow].length = ([1, 1] : List Dbl).length ∧
    ∃ s1 : Process,
      Modeler.createColumn (ScipModeler.toModeler exampleEngine).traced (exampleRowProcess, [])
          ScipObject.blank "col" 1 99999 .VARTYPE_BINARY [exampleRow, exampleForeignRow] [1, 1]
          false 0 =
        some
          ((s1,
            VirtualCall.createColumnVar ScipObject.blank "col" 1 99999 0
                (if VarType.VARTYPE_BINARY = .VARTYPE_BINARY then 1 else DBL_MAX)
                .VARTYPE_BINARY 0 ::
              List.zipWith
                (fun c k => VirtualCall.addCoefLinear c
                  ((ScipModeler.toModeler exampleEngine).createColumnVar exampleRowProcess
                    ScipObject.blank "col" 1 99999 0
                    (if VarType.VARTYPE_BINARY = .VARTYPE_BINARY then 1 else DBL_MAX)
                    .VARTYPE_BINARY 0).2.2
                  k false)
                [exampleRow, exampleForeignRow] [1, 1]),
           ((ScipModeler.toModeler exampleEngine).createColumnVar exampleRowProcess
              ScipObject.blank "col" 1 99999 0
              (if VarType.VARTYPE_BINARY = .VARTYPE_BINARY then 1 else DBL_MAX)
              .VARTYPE_BINARY 0).2.2) :=
  ⟨by decide,
   (createColumn_calls (ScipModeler.toModeler exampleEngine) exampleRowProcess
      ScipObject.blank "col" 1 99999 .VARTYPE_BINARY [exampleRow, exampleForeignRow] [1, 1]
      false 0 (by decide)).imp fun _ h => h.2⟩

/-! ## C5: `isInteger` -/

theorem round_intCast (k : ℤ) : round (k : Dbl) = k := by
  unfold round
  split_ifs with h
  · rw [Int.floor_int_add]
    norm_num
  · rw [Int.ceil_eq_iff]
    constructor <;> linarith

theorem round_add_half (k : ℤ) :
    |(round ((k : Dbl) + 1 / 2) : Dbl) - ((k : Dbl) + 1 / 2)| = 1 / 2 := by
  unfold round
  split_ifs with h
  · have h1 : (k : ℚ) + 1 / 2 + 1 / 2 = ((k + 1 : ℤ) : ℚ) := by push_cast; ring
    rw [h1, Int.floor_intCast]
    push_cast
    rw [show (k : ℚ) + 1 - (k + 1 / 2) = 1 / 2 by ring]
    norm_num
  · have h1 : (k : ℚ) + 1 / 2 - 1 / 2 = ((k : ℤ) : ℚ) := by ring
    rw [h1, Int.ceil_intCast]
    rw [show (k : ℚ) - (k + 1 / 2) = -(1 / 2) by ring]
    norm_num [abs_of_neg]

/-- C5.  When `getVarValue(var)` returns the value `v`, `isInteger(var)` returns true exactly when
`|round(v) - v| < EPSILON` and false otherwise, `round` being the nearest integer with halves
away from zero.  Hence, for a positive tolerance `EPSILON`, it returns true for every integral
`v`, and for `EPSILON ≤ 1/2` it returns false for every `v = k + 1/2` with `k` an integer. -/
theorem isInteger_iff {σ H : Type} (M : Modeler σ H) (EPSILON : Dbl) (s : σ) (var : H) (v : Dbl)
    (hv : (M.getVarValue s var).1 = some v) :
    ((M.isInteger EPSILON s var).1 = some true ↔ |(round v : Dbl) - v| < EPSILON) ∧
    ((M.isInteger EPSILON s var).1 = some false ↔ ¬ |(round v : Dbl) - v| < EPSILON) ∧
    (0 < EPSILON → (∃ k : ℤ, v = k) → (M.isInteger EPSILON s var).1 = some true) ∧
    (EPSILON ≤ 1 / 2 → (∃ k : ℤ, v = k + 1 / 2) →
      (M.isInteger EPSILON s var).1 = some false) := by
  have h1 : (M.isInteger EPSILON s var).1 =
      some (decide (|(round v : Dbl) - v| < EPSILON)) := by
    unfold Modeler.isInteger
    rw [hv]
    by_cases h : |(round v : Dbl) - v| < EPSILON <;> simp [h]
  refine ⟨by simp [h1], by simp [h1], ?_, ?_⟩
  · rintro hpos ⟨k, rfl⟩
    rw [h1, round_intCast]
    simp [hpos]
  · rintro hhalf ⟨k, rfl⟩
    rw [h1, round_add_half]
    simp only [Option.some.injEq, decide_eq_false_iff_not, not_lt]
    exact hhalf

/-- C5 at an example: with the value `5/2` and the tolerance `1/100000`, `isInteger` is false. -/
theorem isInteger_iff_witness :
    (tableModeler.getVarValue [5 / 2] 0).1 = some (5 / 2) ∧
    (tableModeler.isInteger (1 / 100000) [5 / 2] 0).1 = some false :=
  ⟨rfl,
   (isInteger_iff tableModeler (1 / 100000) [5 / 2] 0 (5 / 2) rfl).2.2.2 (by norm_num)
      ⟨2, by norm_num⟩⟩

/-! ## C6: identifiers and the order of handles -/

theorem MyObject.newMany_get :
    ∀ (names : List String) (c i : ℕ), c + names.length ≤ UINT_RANGE → i < names.length →
      ∃ name, names[i]? = some name ∧
        (MyObject.newMany c names).1[i]? = some { name_ := strncpy255 name, id_ := c + i } := by
  intro names
  induction names with
  | nil =>
    intro c i _ hi
    simp at hi
  | cons name rest ih =>
    intro c i hc hi
    cases i with
    | zero => exact ⟨name, by simp, by simp [MyObject.newMany, MyObject.new]⟩
    | succ i =>
      have hi2 : i < rest.length := by
        simp only [List.length_cons] at hi
        omega
      have hc2 : c + 1 < UINT_RANGE := by
        simp only [List.length_cons] at hc
        omega
      have hstep : (MyObject.new c name).2 = c + 1 := by
        simp [MyObject.new, Nat.mod_eq_of_lt hc2]
      obtain ⟨n, hn, hobj⟩ := ih (c + 1) i
        (by simp only [List.length_cons] at hc; omega) hi2
      refine ⟨n, by simpa using hn, ?_⟩
      simp only [MyObject.newMany, hstep, List.getElem?_cons_succ, hobj]
      simp [Nat.add_assoc, Nat.add_comm 1 i]

/-- C6, counterexample.  With the counter at `4294967295`, the constructions `MyObject("a")` and
then `MyObject("b")` give `a` the identifier `4294967295` and `b` the identifier `0`: although
`a` was constructed first, `a < b` is `0` (false) and `b < a` is `1` (true). -/
theorem MyObject_order_lost_at_wrap :
    (MyObject.newMany 4294967295 ["a", "b"]).1 =
      [{ name_ := "a", id_ := 4294967295 }, { name_ := "b", id_ := 0 }] ∧
    MyObject.lt { name_ := "a", id_ := 4294967295 } { name_ := "b", id_ := 0 } = 0 ∧
    MyObject.lt { name_ := "b", id_ := 0 } { name_ := "a", id_ := 4294967295 } = 1 := by
  refine ⟨?_, by decide, by decide⟩
  simp [MyObject.newMany, MyObject.new, strncpy255, UINT_RANGE]

/-- C6, amended.  As long as the 32-bit counter does not wrap, that is, when the constructions
`MyObject(name)` made from counter value `c` number at most `2 ^ 32 - c`, identity is by creation
order and never by name: the i-th and the j-th object built, `i < j`, have the identifiers
`c + i` and `c + j`, so they differ, `a < b` is `1`, `b < a` is `0`, and `operator<` gives the
same answer when the two names are replaced by any others. -/
theorem MyObject_order_by_creation (c : ℕ) (names : List String) (i j : ℕ)
    (hwrap : c + names.length ≤ UINT_RANGE) (hij : i < j) (hj : j < names.length) :
    ∃ a b : MyObject,
      (MyObject.newMany c names).1[i]? = some a ∧ (MyObject.newMany c names).1[j]? = some b ∧
      a.id_ = c + i ∧ b.id_ = c + j ∧ a.id_ ≠ b.id_ ∧
      MyObject.lt a b = 1 ∧ MyObject.lt b a = 0 ∧
      ∀ n1 n2 : String,
        MyObject.lt { a with name_ := n1 } { b with name_ := n2 } = MyObject.lt a b ∧
        MyObject.lt { b with name_ := n2 } { a with name_ := n1 } = MyObject.lt b a := by
  obtain ⟨na, _, ha⟩ := MyObject.newMany_get names c i hwrap (lt_trans hij hj)
  obtain ⟨nb, _, hb⟩ := MyObject.newMany_get names c j hwrap hj
  refine ⟨_, _, ha, hb, rfl, rfl, ?_, ?_, ?_, ?_⟩
  · simp only [ne_eq]
    omega
  · simp [MyObject.lt, hij]
  · simp only [MyObject.lt]
    rw [if_neg]
    omega
  · intro n1 n2
    exact ⟨rfl, rfl⟩

/-- C6, the amended statement at an example: two objects of equal name built from counter `0`. -/
theorem MyObject_order_by_creation_witness :
    0 + ["x", "x"].length ≤ UINT_RANGE ∧ 0 < 1 ∧ 1 < ["x", "x"].length ∧
    ∃ a b : MyObject,
      (MyObject.newMany 0 ["x", "x"]).1[0]? = some a ∧
      (MyObject.newMany 0 ["x", "x"]).1[1]? = some b ∧
      a.id_ ≠ b.id_ ∧ MyObject.lt a b = 1 ∧ MyObject.lt b a = 0 :=
  ⟨by decide, by decide, by decide,
   (MyObject_order_by_creation 0 ["x", "x"] 0 1 (by decide) (by decide) (by decide)).imp
      fun _ h => h.imp fun _ h2 => ⟨h2.1, h2.2.1, h2.2.2.2.2.1, h2.2.2.2.2.2.1, h2.2.2.2.2.2.2.1⟩⟩

/-! ## C7: one counter for the whole process -/

/-- C7, counterexample.  Two freshly constructed modelers share the counter.  When the second
modeler creates its first variable with the counter at `0`, the handle gets identifier `0`; when
the first modeler has created one variable before (the counter is then `1`), the same call on the
second modeler gives its first handle the identifier `1`. -/
theorem handle_id_depends_on_other_modeler :
    (ScipModeler.createVar exampleEngine { s_count := 0, self := ScipModeler.new }
        ScipObject.blank "y" 1 0 1 .VARTYPE_CONTINUOUS 0).2.2.id_ = 0 ∧
    (ScipModeler.createVar exampleEngine { s_count := 0, self := ScipModeler.new }
        ScipObject.blank "x" 1 0 1 .VARTYPE_CONTINUOUS 0).2.1.s_count = 1 ∧
    (ScipModeler.createVar exampleEngine
        { s_count :=
            (ScipModeler.createVar exampleEngine { s_count := 0, self := ScipModeler.new }
              ScipObject.blank "x" 1 0 1 .VARTYPE_CONTINUOUS 0).2.1.s_count,
          self := ScipModeler.new }
        ScipObject.blank "y" 1 0 1 .VARTYPE_CONTINUOUS 0).2.2.id_ = 1 := by
  have hx : (ScipModeler.createVar exampleEngine { s_count := 0, self := ScipModeler.new }
      ScipObject.blank "x" 1 0 1 .VARTYPE_CONTINUOUS 0).2.1.s_count = 1 := by
    simp only [ScipModeler.createVar, ScipModeler.createVar.lb, ScipModeler.createVar.ub,
      ScipModeler.createVar.type]
    simp only [zero_ne_DBL_MIN, one_ne_DBL_MAX, if_false]
    simp [SCIPcreateVar, SCIPaddVar, SCIPaddPricedVar, Scip.send, exampleEngine,
      ScipModeler.new, SCIP_OKAY, ScipVar.new, MyObject.new, UINT_RANGE]
  refine ⟨?_, hx, ?_⟩
  · simp only [ScipModeler.createVar, ScipModeler.createVar.lb, ScipModeler.createVar.ub,
      ScipModeler.createVar.type]
    simp only [zero_ne_DBL_MIN, one_ne_DBL_MAX, if_false]
    simp [SCIPcreateVar, SCIPaddVar, SCIPaddPricedVar, Scip.send, exampleEngine,
      ScipModeler.new, SCIP_OKAY, ScipVar.new, MyObject.new, UINT_RANGE]
  · rw [hx]
    simp only [ScipModeler.createVar, ScipModeler.createVar.lb, ScipModeler.createVar.ub,
      ScipModeler.createVar.type]
    simp only [zero_ne_DBL_MIN, one_ne_DBL_MAX, if_false]
    simp [SCIPcreateVar, SCIPaddVar, SCIPaddPricedVar, Scip.send, exampleEngine,
      ScipModeler.new, SCIP_OKAY, ScipVar.new, MyObject.new, UINT_RANGE]

/-- C7, amended.  Handle identifiers come from the single counter `MyObject::s_count` of the
process, which every modeler shares and which constructing a modeler does not reset: a
successful `createVar` or `createConsLinear` on any instance gives the new handle the current
value `c` of the counter and leaves the counter at `(c + 1) mod 2 ^ 32`.  So, when a first
modeler has created one variable, the next handle created through a second modeler has the
identifier `(c + 1) mod 2 ^ 32`, not `c`. -/
theorem handle_id_from_process_counter (E : ScipEngine) (c : ℕ) (m1 m2 : ScipModeler)
    (var1 var2 con : ScipObject) (name1 name2 con_name : String)
    (obj1 lb1 ub1 score1 obj2 lb2 ub2 score2 lhs rhs : Dbl) (type1 type2 : VarType)
    (vars : List ScipObject) (coeffs : List Dbl)
    (h1 : (ScipModeler.createVar E { s_count := c, self := m1 } var1 name1 obj1 lb1 ub1 type1
      score1).1 = none)
    (h2 : (ScipModeler.createVar E { s_count := c, self := m2 } var2 name2 obj2 lb2 ub2 type2
      score2).1 = none)
    (h3 : (ScipModeler.createConsLinear E { s_count := c, self := m2 } con con_name lhs rhs vars
      coeffs).1 = none) :
    (ScipModeler.createVar E { s_count := c, self := m2 } var2 name2 obj2 lb2 ub2 type2
        score2).2.2.id_ = c ∧
    (ScipModeler.createVar E { s_count := c, self := m2 } var2 name2 obj2 lb2 ub2 type2
        score2).2.1.s_count = (c + 1) % UINT_RANGE ∧
    (ScipModeler.createConsLinear E { s_count := c, self := m2 } con con_name lhs rhs vars
        coeffs).2.2.id_ = c ∧
    (ScipModeler.createConsLinear E { s_count := c, self := m2 } con con_name lhs rhs vars
        coeffs).2.1.s_count = (c + 1) % UINT_RANGE ∧
    (ScipModeler.createVar E
        { s_count :=
            (ScipModeler.createVar E { s_count := c, self := m1 } var1 name1 obj1 lb1 ub1 type1
              score1).2.1.s_count,
          self := m2 }
        var2 name2 obj2 lb2 ub2 type2 score2).2.2.id_ = (c + 1) % UINT_RANGE := by
  have key : ∀ (p : Process) (var : ScipObject) (name : String) (obj lb ub score : Dbl)
      (t : VarType), (ScipModeler.createVar E p var name obj lb ub t score).1 = none →
      (ScipModeler.createVar E p var name obj lb ub t score).2.2.id_ = p.s_count ∧
      (ScipModeler.createVar E p var name obj lb ub t score).2.1.s_count =
        (p.s_count + 1) % UINT_RANGE := by
    intro p var name obj lb ub score t h
    rcases ScipModeler.createVar_registry E p var name obj lb ub t score with hr | hr
    · refine ⟨?_, hr.2.2.1⟩
      rw [hr.2.1]
      rfl
    · obtain ⟨⟨rc, _, hrc⟩, _⟩ := hr
      rw [h] at hrc
      cases hrc
  have independent : ∀ (d : ℕ),
      (ScipModeler.createVar E { s_count := d, self := m2 } var2 name2 obj2 lb2 ub2 type2
        score2).1 =
      (ScipModeler.createVar E { s_count := c, self := m2 } var2 name2 obj2 lb2 ub2 type2
        score2).1 := by
    intro d
    simp only [ScipModeler.createVar, SCIPcreateVar, SCIPaddPricedVar, SCIPaddVar, Scip.send]
    split_ifs <;> rfl
  have hcons := ScipModeler.createConsLinear_registry E { s_count := c, self := m2 } con
    con_name lhs rhs vars coeffs h3
  refine ⟨(key _ _ _ _ _ _ _ _ h2).1, (key _ _ _ _ _ _ _ _ h2).2, ?_, hcons.2.1, ?_⟩
  · rw [hcons.1]
    rfl
  · rw [(key _ _ _ _ _ _ _ _ h1).2]
    exact (key _ _ _ _ _ _ _ _ ((independent _).trans h2)).1

/-- C7, the amended statement at an example: two fresh modelers on the example engine, counter
`0`; the handle created through the second modeler after the first one created a variable has
identifier `1`. -/
theorem handle_id_from_process_counter_witness :
    (ScipModeler.createVar exampleEngine { s_count := 0, self := ScipModeler.new }
        ScipObject.blank "x" 1 0 1 .VARTYPE_CONTINUOUS 0).1 = none ∧
    (ScipModeler.createVar exampleEngine { s_count := 0, self := ScipModeler.new }
        ScipObject.blank "y" 1 0 1 .VARTYPE_CONTINUOUS 0).1 = none ∧
    (ScipModeler.createConsLinear exampleEngine { s_count := 0, self := ScipModeler.new }
        ScipObject.blank "c" 0 5 [] []).1 = none ∧
    (ScipModeler.createVar exampleEngine
        { s_count :=
            (ScipModeler.createVar exampleEngine { s_count := 0, self := ScipModeler.new }
              ScipObject.blank "x" 1 0 1 .VARTYPE_CONTINUOUS 0).2.1.s_count,
          self := ScipModeler.new }
        ScipObject.blank "y" 1 0 1 .VARTYPE_CONTINUOUS 0).2.2.id_ = (0 + 1) % UINT_RANGE := by
  have hv : ∀ name : String,
      (ScipModeler.createVar exampleEngine { s_count := 0, self := ScipModeler.new }
        ScipObject.blank name 1 0 1 .VARTYPE_CONTINUOUS 0).1 = none := by
    intro name
    simp only [ScipModeler.createVar, ScipModeler.createVar.lb, ScipModeler.createVar.ub,
      ScipModeler.createVar.type]
    simp only [zero_ne_DBL_MIN, one_ne_DBL_MAX, if_false]
    simp [SCIPcreateVar, SCIPaddVar, SCIPaddPricedVar, Scip.send, exampleEngine,
      ScipModeler.new, SCIP_OKAY]
  have hc : (ScipModeler.createConsLinear exampleEngine
      { s_count := 0, self := ScipModeler.new } ScipObject.blank "c" 0 5 [] []).1 = none := by
    simp [ScipModeler.createConsLinear, SCIPcreateConsLinear, SCIPaddCons, Scip.send,
      exampleEngine, ScipModeler.new, SCIP_OKAY]
  exact ⟨hv "x", hv "y", hc,
    (handle_id_from_process_counter exampleEngine 0 ScipModeler.new ScipModeler.new
      ScipObject.blank ScipObject.blank ScipObject.blank "x" "y" "c" 1 0 1 0 1 0 1 0 0 5
      .VARTYPE_CONTINUOUS .VARTYPE_CONTINUOUS [] [] (hv "x") (hv "y") hc).2.2.2.2⟩

/-! ## C8: the score decides how a variable is inserted -/

/-- C9, the code at the failing input.  On the example engine, after the variable `x` has been
created, `getVarValue(x)` computes the solution value `2` in its last statement and returns no
value, since it has no `return`; the state is unchanged.  `getDual` does the same with the dual
`3` of the row `c`, and `getVarValues({x})` is a vector of length one whose entry has received no
value. -/
theorem getVarValue_returns_no_value :
    ScipModeler.getVarValue.lastStatement exampleEngine exampleVarProcess exampleVar = 2 ∧
    ScipModeler.getVarValue exampleEngine exampleVarProcess exampleVar =
      (none, exampleVarProcess) ∧
    ScipModeler.getDual.lastStatement exampleEngine exampleRowProcess exampleRow false = 3 ∧
    ScipModeler.getDual exampleEngine exampleRowProcess exampleRow false =
      (none, exampleRowProcess) ∧
    Modeler.getVarValues (ScipModeler.toModeler exampleEngine) exampleVarProcess [exampleVar] =
      ([none], exampleVarProcess) := by
  refine ⟨rfl, rfl, ?_, rfl, rfl⟩
  simp [ScipModeler.getDual.lastStatement, ScipModeler.getDual.cons3, ScipCons.get,
    exampleEngine, exampleRow]

/-! ## C10: the dual of a row without transformed counterpart -/

/-- C10, counterexample.  On the example engine the row `c` has no transformed counterpart: the
lookup succeeds and leaves the null pointer.  `getDual(c, true)` then asks the engine for the
dual of the null pointer, obtains the number `0`, and ends like every other call of `getDual`,
with the state unchanged and nothing reported: its outcome equals that of `getDual(c, false)`. -/
theorem getDual_reports_nothing :
    exampleEngine.getTransformedCons exampleRowProcess.self.scip_ (ScipCons.get exampleRow) =
      (SCIP_OKAY, 0) ∧
    ScipModeler.getDual.cons3 exampleEngine exampleRowProcess exampleRow true = 0 ∧
    ScipModeler.getDual.lastStatement exampleEngine exampleRowProcess exampleRow true = 0 ∧
    ScipModeler.getDual exampleEngine exampleRowProcess exampleRow true =
      (none, exampleRowProcess) ∧
    ScipModeler.getDual exampleEngine exampleRowProcess exampleRow true =
      ScipModeler.getDual exampleEngine exampleRowProcess exampleRow false := by
  refine ⟨rfl, ?_, ?_, rfl, rfl⟩
  · simp [ScipModeler.getDual.cons3, ScipModeler.getTransformedCons, exampleEngine]
  · simp [ScipModeler.getDual.lastStatement, ScipModeler.getDual.cons3,
      ScipModeler.getTransformedCons, exampleEngine]

/-- C10, amended.  `getDual` has no outcome that reports a missing transformed row.  With
`transformed = true` it looks the transformed row up, does not look at the code of the lookup,
and asks the engine for the dual of whatever pointer the lookup left, the null pointer included;
with `transformed = false` it asks for the dual of the original row, and the lookup of the engine
plays no part; in both cases the state is left unchanged. -/
theorem getDual_asks_engine (E : ScipEngine) (p : Process) (cons : ScipObject) :
    ScipModeler.getDual.lastStatement E p cons true =
      E.getDualsolLinear p.self.scip_ (E.getTransformedCons p.self.scip_ cons.ptr_).2 ∧
    ScipModeler.getDual.lastStatement E p cons false =
      E.getDualsolLinear p.self.scip_ cons.ptr_ ∧
    (∀ f : Scip → SCIP_CONS → SCIP_RETCODE × SCIP_CONS,
      ScipModeler.getDual.lastStatement { E with getTransformedCons := f } p cons false =
        ScipModeler.getDual.lastStatement E p cons false) ∧
    (ScipModeler.getDual E p cons true).2 = p ∧
    (ScipModeler.getDual E p cons false).2 = p := by
  refine ⟨?_, ?_, ?_, rfl, rfl⟩
  · simp only [ScipModeler.getDual.lastStatement, ScipModeler.getDual.cons3,
      ScipModeler.getTransformedCons, ScipCons.get]
    split_ifs <;> rfl
  · simp [ScipModeler.getDual.lastStatement, ScipModeler.getDual.cons3, ScipCons.get]
  · intro f
    simp [ScipModeler.getDual.lastStatement, ScipModeler.getDual.cons3, ScipCons.get]

/-! ## C12: original and final rows -/

/-- C12.  For every name, bounds, variables and coefficients, `createConsLinear` and
`createFinalConsLinear` open with the same row-creation request: the same name, `nvars`,
variables in the same order, coefficients, `lhs`, `rhs` and flags `initial`, `separate`,
`enforce`, `check`, `propagate`, `local`, `dynamic`, `removable`, `stickingatnode`; only the
flag `modifiable` differs, true for `createConsLinear` and false for `createFinalConsLinear`.
Either call sends nothing else than this request, followed by `SCIPaddCons` of the new row when
the engine accepted it. -/
theorem createConsLinear_differs_in_modifiable (E : ScipEngine) (p : Process)
    (con : ScipObject) (con_name : String) (lhs rhs : Dbl) (vars : List ScipObject)
    (coeffs : List Dbl) :
    Scip.sentSince p.self.scip_
        (ScipModeler.createConsLinear E p con con_name lhs rhs vars coeffs).2.1.self.scip_ =
      ScipRequest.createConsLinear con_name vars.length (vars.map ScipVar.get) coeffs lhs rhs
          true false true true true false true false false false ::
        (if E.retcode p.self.scip_
            (.createConsLinear con_name vars.length (vars.map ScipVar.get) coeffs lhs rhs
              true false true true true false true false false false) = SCIP_OKAY
          then [.addCons (E.newCons p.self.scip_)] else []) ∧
    Scip.sentSince p.self.scip_
        (ScipModeler.createFinalConsLinear E p con con_name lhs rhs vars
          coeffs).2.1.self.scip_ =
      ScipRequest.createConsLinear con_name vars.length (vars.map ScipVar.get) coeffs lhs rhs
          true false true true true false false false false false ::
        (if E.retcode p.self.scip_
            (.createConsLinear con_name vars.length (vars.map ScipVar.get) coeffs lhs rhs
              true false true true true false false false false false) = SCIP_OKAY
          then [.addCons (E.newCons p.self.scip_)] else []) := by
  constructor
  · rw [ScipModeler.createConsLinear_scip, Scip.sentSince_append]
    split_ifs <;> simp
  · rw [ScipModeler.createFinalConsLinear_scip, Scip.sentSince_append]
    split_ifs <;> simp

/-! ## C13: the free side of a one-sided row -/

/-- C13, the code at the failing input.  On the example engine, after the variable `x` has been
created, `createLEConsLinear(&c, "c", 5, {x}, {1})` asks for a row with left-hand side
`DBL_MIN`, a positive number, so the lower bound of the row is neither minus the engine's
infinity nor below `0`; `createVar` given the same sentinel asks for minus infinity.  Likewise
`createGEConsLinear(&c, "c", 5, {x}, {1})` asks for the right-hand side `DBL_MAX`, untranslated,
where `createVar` asks for the engine's infinity. -/
theorem createLEConsLinear_lower_bound_is_DBL_MIN :
    Modeler.createLEConsLinear (ScipModeler.toModeler exampleEngine) exampleVarProcess
        ScipObject.blank "c" 5 [exampleVar] [1] = (exampleLEProcess, exampleLERow) ∧
    Scip.sentSince exampleVarProcess.self.scip_ exampleLEProcess.self.scip_ =
      [.createConsLinear "c" 1 [1] [1] DBL_MIN 5 true false true true true false true false
          false false,
       .addCons 1] ∧
    0 < DBL_MIN ∧
    DBL_MIN ≠ -exampleEngine.infinity ∧
    ScipModeler.createVar.lb exampleEngine DBL_MIN = -exampleEngine.infinity ∧
    Modeler.createGEConsLinear (ScipModeler.toModeler exampleEngine) exampleVarProcess
        ScipObject.blank "c" 5 [exampleVar] [1] = (exampleGEProcess, exampleLERow) ∧
    Scip.sentSince exampleVarProcess.self.scip_ exampleGEProcess.self.scip_ =
      [.createConsLinear "c" 1 [1] [1] 5 DBL_MAX true false true true true false true false
          false false,
       .addCons 1] ∧
    exampleEngine.infinity < DBL_MAX ∧
    ScipModeler.createVar.ub exampleEngine DBL_MAX = exampleEngine.infinity := by
  have hneg : -exampleEngine.infinity < 0 := by
    simp [exampleEngine]
  refine ⟨?_, ?_, DBL_MIN_pos, ?_, ?_, ?_, ?_, exampleEngine_infinity_lt_DBL_MAX, ?_⟩
  · simp only [Modeler.createLEConsLinear, ScipModeler.toModeler,
      ScipModeler.createConsLinear_example]
    rfl
  · rfl
  · exact ne_of_gt (lt_trans hneg DBL_MIN_pos)
  · simp [ScipModeler.createVar.lb]
  · simp only [Modeler.createGEConsLinear, ScipModeler.toModeler,
      ScipModeler.createConsLinear_example]
    rfl
  · rfl
  · simp [ScipModeler.createVar.ub]

/-! ## C11: the registry is append-only -/

theorem ScipModeler.createConsLinear_cases (E : ScipEngine) (p : Process) (con : ScipObject)
    (con_name : String) (lhs rhs : Dbl) (vars : List ScipObject) (coeffs : List Dbl) :
    ((ScipModeler.createConsLinear E p con con_name lhs rhs vars coeffs).1 = none ∧
      (ScipModeler.createConsLinear E p con con_name lhs rhs vars coeffs).2.2.id_ = p.s_count ∧
      (ScipModeler.createConsLinear E p con con_name lhs rhs vars coeffs).2.1.s_count =
        (p.s_count + 1) % UINT_RANGE ∧
      (ScipModeler.createConsLinear E p con con_name lhs rhs vars coeffs).2.1.self.objects_ =
        p.self.objects_ ++
          [(ScipModeler.createConsLinear E p con con_name lhs rhs vars coeffs).2.2]) ∨
    ((∃ rc, (ScipModeler.createConsLinear E p con con_name lhs rhs vars coeffs).1 = some rc) ∧
      (ScipModeler.createConsLinear E p con con_name lhs rhs vars coeffs).2.1.s_count =
        p.s_count ∧
      (ScipModeler.createConsLinear E p con con_name lhs rhs vars coeffs).2.1.self.objects_ =
        p.self.objects_) := by
  simp only [ScipModeler.createConsLinear, SCIPcreateConsLinear, SCIPaddCons, Scip.send,
    ScipCons.new, MyObject.new]
  split_ifs <;> simp_all

theorem ScipModeler.createFinalConsLinear_cases (E : ScipEngine) (p : Process)
    (con : ScipObject) (con_name : String) (lhs rhs : Dbl) (vars : List ScipObject)
    (coeffs : List Dbl) :
    ((ScipModeler.createFinalConsLinear E p con con_name lhs rhs vars coeffs).1 = none ∧
      (ScipModeler.createFinalConsLinear E p con con_name lhs rhs vars coeffs).2.2.id_ =
        p.s_count ∧
      (ScipModeler.createFinalConsLinear E p con con_name lhs rhs vars coeffs).2.1.s_count =
        (p.s_count + 1) % UINT_RANGE ∧
      (ScipModeler.createFinalConsLinear E p con con_name lhs rhs vars
          coeffs).2.1.self.objects_ =
        p.self.objects_ ++
          [(ScipModeler.createFinalConsLinear E p con con_name lhs rhs vars coeffs).2.2]) ∨
    ((∃ rc,
        (ScipModeler.createFinalConsLinear E p con con_name lhs rhs vars coeffs).1 = some rc) ∧
      (ScipModeler.createFinalConsLinear E p con con_name lhs rhs vars coeffs).2.1.s_count =
        p.s_count ∧
      (ScipModeler.createFinalConsLinear E p con con_name lhs rhs vars
          coeffs).2.1.self.objects_ =
        p.self.objects_) := by
  simp only [ScipModeler.createFinalConsLinear, SCIPcreateConsLinear, SCIPaddCons, Scip.send,
    ScipCons.new, MyObject.new]
  split_ifs <;> simp_all

theorem ScipModeler.createVar_cases (E : ScipEngine) (p : Process) (var : ScipObject)
    (var_name : String) (objCoeff lb ub : Dbl) (vartype : VarType) (score : Dbl) :
    ((ScipModeler.createVar E p var var_name objCoeff lb ub vartype score).1 = none ∧
      (ScipModeler.createVar E p var var_name objCoeff lb ub vartype score).2.2.id_ =
        p.s_count ∧
      (ScipModeler.createVar E p var var_name objCoeff lb ub vartype score).2.1.s_count =
        (p.s_count + 1) % UINT_RANGE ∧
      (ScipModeler.createVar E p var var_name objCoeff lb ub vartype score).2.1.self.objects_ =
        p.self.objects_ ++
          [(ScipModeler.createVar E p var var_name objCoeff lb ub vartype score).2.2]) ∨
    ((∃ rc, (ScipModeler.createVar E p var var_name objCoeff lb ub vartype score).1 = some rc) ∧
      (ScipModeler.createVar E p var var_name objCoeff lb ub vartype score).2.1.s_count =
        p.s_count ∧
      (ScipModeler.createVar E p var var_name objCoeff lb ub vartype score).2.1.self.objects_ =
        p.self.objects_) := by
  rcases ScipModeler.createVar_registry E p var var_name objCoeff lb ub vartype score with h | h
  · refine Or.inl ⟨h.1, ?_, h.2.2.1, h.2.2.2⟩
    rw [h.2.1]
    rfl
  · obtain ⟨⟨rc, _, hrc⟩, _, h3, h4⟩ := h
    exact Or.inr ⟨⟨rc, hrc⟩, h3, h4⟩

theorem ModelerCall.creation_outcome (p : Process)
    (r : Option SCIP_RETCODE × Process × ScipObject)
    (hr : (r.1 = none ∧ r.2.2.id_ = p.s_count ∧ r.2.1.s_count = (p.s_count + 1) % UINT_RANGE ∧
        r.2.1.self.objects_ = p.self.objects_ ++ [r.2.2]) ∨
      ((∃ rc, r.1 = some rc) ∧ r.2.1.s_count = p.s_count ∧
        r.2.1.self.objects_ = p.self.objects_)) :
    r.2.1.self.objects_ = p.self.objects_ ++ (ModelerCall.handedBack r.1 r.2.2).toList ∧
      ((ModelerCall.handedBack r.1 r.2.2 = none ∧ r.2.1.s_count = p.s_count) ∨
        ∃ h, ModelerCall.handedBack r.1 r.2.2 = some h ∧ h.id_ = p.s_count ∧
          r.2.1.s_count = (p.s_count + 1) % UINT_RANGE) := by
  rcases hr with ⟨h1, h2, h3, h4⟩ | ⟨⟨rc, h1⟩, h3, h4⟩
  · rw [h1]
    exact ⟨by simpa [ModelerCall.handedBack] using h4,
      Or.inr ⟨r.2.2, rfl, h2, h3⟩⟩
  · rw [h1]
    exact ⟨by simpa [ModelerCall.handedBack] using h4, Or.inl ⟨rfl, h3⟩⟩

theorem ModelerCall.apply_spec (E : ScipEngine) (p : Process) (call : ModelerCall)
    (hdef : call.defined) :
    ∃ (q : Process) (hb : Option ScipObject),
      ModelerCall.apply E p call = some (q, hb) ∧
      q.self.objects_ = p.self.objects_ ++ hb.toList ∧
      ((hb = none ∧ q.s_count = p.s_count) ∨
        ∃ h, hb = some h ∧ h.id_ = p.s_count ∧ q.s_count = (p.s_count + 1) % UINT_RANGE) := by
  cases call with
  | createVar var_name objCoeff lb ub vartype score =>
    exact ⟨_, _, rfl, ModelerCall.creation_outcome p _
      (ScipModeler.createVar_cases E p ScipObject.blank var_name objCoeff lb ub vartype score)⟩
  | createConsLinear con_name lhs rhs vars coeffs =>
    exact ⟨_, _, rfl, ModelerCall.creation_outcome p _
      (ScipModeler.createConsLinear_cases E p ScipObject.blank con_name lhs rhs vars coeffs)⟩
  | createFinalConsLinear con_name lhs rhs vars coeffs =>
    exact ⟨_, _, rfl, ModelerCall.creation_outcome p _
      (ScipModeler.createFinalConsLinear_cases E p ScipObject.blank con_name lhs rhs vars
        coeffs)⟩
  | createColumn var_name objCoeff dualObj vartype cons coeffs transformed score =>
    obtain ⟨evs, hloop, _, _⟩ :=
      ScipModeler.createColumn_loop E
        (Modeler.createColumn.create (ScipModeler.toModeler E) p ScipObject.blank var_name
          objCoeff dualObj vartype score).2 coeffs transformed cons 0
        (Modeler.createColumn.create (ScipModeler.toModeler E) p ScipObject.blank var_name
          objCoeff dualObj vartype score).1 (by simpa [ModelerCall.defined] using hdef)
    have hout := ModelerCall.creation_outcome p _
      (ScipModeler.createVar_cases E p ScipObject.blank var_name objCoeff 0
        (if vartype = .VARTYPE_BINARY then 1 else DBL_MAX) vartype score)
    refine ⟨{ (Modeler.createColumn.create (ScipModeler.toModeler E) p ScipObject.blank
          var_name objCoeff dualObj vartype score).1 with
        self :=
          { (Modeler.createColumn.create (ScipModeler.toModeler E) p ScipObject.blank var_name
                objCoeff dualObj vartype score).1.self with
            scip_ :=
              (Modeler.createColumn.create (ScipModeler.toModeler E) p ScipObject.blank
                var_name objCoeff dualObj vartype score).1.self.scip_ ++ evs } },
      ModelerCall.handedBack
        (ScipModeler.createColumnVar E p ScipObject.blank var_name objCoeff dualObj 0
          (if vartype = .VARTYPE_BINARY then 1 else DBL_MAX) vartype score).1
        (Modeler.createColumn.create (ScipModeler.toModeler E) p ScipObject.blank var_name
          objCoeff dualObj vartype score).2, ?_, ?_⟩
    · simp only [ModelerCall.apply, Modeler.createColumn]
      rw [hloop]
      rfl
    · simp only [ScipModeler.createColumn_create, ScipModeler.createColumnVar]
      exact hout
  | addCoefLinear cons var coeff transformed =>
    obtain ⟨e, _, hstate⟩ := ScipModeler.addCoefLinear_state E p cons var coeff transformed
    refine ⟨_, none, rfl, ?_, Or.inl ⟨rfl, ?_⟩⟩ <;> simp [hstate]
  | getVarValue var => exact ⟨_, none, rfl, by simp [ScipModeler.getVarValue], Or.inl ⟨rfl, rfl⟩⟩
  | getDual cons transformed =>
    exact ⟨_, none, rfl, by simp [ScipModeler.getDual], Or.inl ⟨rfl, rfl⟩⟩
  | isInteger EPSILON var =>
    exact ⟨_, none, rfl,
      by simp [Modeler.isInteger, ScipModeler.toModeler, ScipModeler.getVarValue],
      Or.inl ⟨rfl, by simp [Modeler.isInteger, ScipModeler.toModeler, ScipModeler.getVarValue]⟩⟩
  | getTotalCost var =>
    exact ⟨_, none, rfl, by simp [ScipModeler.getTotalCost, ScipModeler.getVarValue],
      Or.inl ⟨rfl, rfl⟩⟩

theorem ModelerCall.run_spec (E : ScipEngine) :
    ∀ (calls : List ModelerCall) (p : Process), (∀ call ∈ calls, call.defined) →
      ∃ (q : Process) (hs : List ScipObject),
        ModelerCall.run E p calls = some (q, hs) ∧
        q.self.objects_ = p.self.objects_ ++ hs ∧
        (p.s_count + calls.length < UINT_RANGE →
          q.s_count = p.s_count + hs.length ∧
          hs.map (fun h => h.id_) = List.range' p.s_count hs.length) := by
  intro calls
  induction calls with
  | nil =>
    intro p _
    exact ⟨p, [], rfl, by simp, fun _ => ⟨rfl, rfl⟩⟩
  | cons call rest ih =>
    intro p hdef
    obtain ⟨p1, hb, happly, hobj, hcount⟩ :=
      ModelerCall.apply_spec E p call (hdef call (List.mem_cons_self _ _))
    obtain ⟨q, hs, hrun, hobj2, hids⟩ :=
      ih p1 (fun c hc => hdef c (List.mem_cons_of_mem _ hc))
    refine ⟨q, hb.toList ++ hs, ?_, ?_, ?_⟩
    · simp only [ModelerCall.run, happly, hrun]
    · rw [hobj2, hobj, List.append_assoc]
    · intro hwrap
      simp only [List.length_cons] at hwrap
      rcases hcount with ⟨hnone, hc⟩ | ⟨h, hsome, hid, hc⟩
      · obtain ⟨h1, h2⟩ := hids (by rw [hc]; omega)
        subst hnone
        rw [hc] at h1 h2
        exact ⟨by simpa using h1, by simpa using h2⟩
      · have hstep : p1.s_count = p.s_count + 1 := by
          rw [hc]
          exact Nat.mod_eq_of_lt (by omega)
        obtain ⟨h1, h2⟩ := hids (by rw [hstep]; omega)
        subst hsome
        rw [hstep] at h1 h2
        refine ⟨?_, ?_⟩
        · simp only [Option.toList, List.singleton_append, List.length_cons]
          omega
        · simp only [Option.toList, List.singleton_append, List.map_cons, List.length_cons,
            List.range'_succ, hid, h2]

/-- C11.  The registry is append-only.  A `createVar`, `createConsLinear` or
`createFinalConsLinear` call that succeeds (no engine code is returned) leaves `objects_` equal
to its previous content followed by exactly the handle left in the caller's slot; `createColumn`
with any number of attachments, once its variable has been created, grows `objects_` by exactly
that one handle; `addCoefLinear`, `getVarValue`, `getDual`, `isInteger` and `getTotalCost` leave
`objects_` unchanged.  Hence after any run of such calls `objects_` is its previous content
followed by the handles handed back by the creations of the run, one entry each and in order;
and, since identifiers are consecutive while the counter does not wrap, each of these handles
occurs exactly once in `objects_`. -/
theorem registry_append_only (E : ScipEngine) (p : Process) :
    (∀ (var : ScipObject) (var_name : String) (objCoeff lb ub : Dbl) (vartype : VarType)
        (score : Dbl),
      (ScipModeler.createVar E p var var_name objCoeff lb ub vartype score).1 = none →
      (ScipModeler.createVar E p var var_name objCoeff lb ub vartype score).2.1.self.objects_ =
        p.self.objects_ ++
          [(ScipModeler.createVar E p var var_name objCoeff lb ub vartype score).2.2]) ∧
    (∀ (con : ScipObject) (con_name : String) (lhs rhs : Dbl) (vars : List ScipObject)
        (coeffs : List Dbl),
      (ScipModeler.createConsLinear E p con con_name lhs rhs vars coeffs).1 = none →
      (ScipModeler.createConsLinear E p con con_name lhs rhs vars coeffs).2.1.self.objects_ =
        p.self.objects_ ++
          [(ScipModeler.createConsLinear E p con con_name lhs rhs vars coeffs).2.2]) ∧
    (∀ (con : ScipObject) (con_name : String) (lhs rhs : Dbl) (vars : List ScipObject)
        (coeffs : List Dbl),
      (ScipModeler.createFinalConsLinear E p con con_name lhs rhs vars coeffs).1 = none →
      (ScipModeler.createFinalConsLinear E p con con_name lhs rhs vars
          coeffs).2.1.self.objects_ =
        p.self.objects_ ++
          [(ScipModeler.createFinalConsLinear E p con con_name lhs rhs vars coeffs).2.2]) ∧
    (∀ (var : ScipObject) (var_name : String) (objCoeff dualObj : Dbl) (vartype : VarType)
        (cons : List ScipObject) (coeffs : List Dbl) (transformed : Bool) (score : Dbl),
      cons.length ≤ coeffs.length →
      (ScipModeler.createColumnVar E p var var_name objCoeff dualObj 0
        (if vartype = .VARTYPE_BINARY then 1 else DBL_MAX) vartype score).1 = none →
      ∃ r : Process × ScipObject,
        Modeler.createColumn (ScipModeler.toModeler E) p var var_name objCoeff dualObj vartype
          cons coeffs transformed score = some r ∧
        r.1.self.objects_ = p.self.objects_ ++ [r.2]) ∧
    (∀ (cons var : ScipObject) (coeff : Dbl) (transformed : Bool),
      (ScipModeler.addCoefLinear E p cons var coeff transformed).2.self.objects_ =
        p.self.objects_) ∧
    (∀ var : ScipObject, (ScipModeler.getVarValue E p var).2.self.objects_ = p.self.objects_) ∧
    (∀ (cons : ScipObject) (transformed : Bool),
      (ScipModeler.getDual E p cons transformed).2.self.objects_ = p.self.objects_) ∧
    (∀ (EPSILON : Dbl) (var : ScipObject),
      (Modeler.isInteger (ScipModeler.toModeler E) EPSILON p var).2.self.objects_ =
        p.self.objects_) ∧
    (∀ var : ScipObject, (ScipModeler.getTotalCost E p var).2.self.objects_ = p.self.objects_) ∧
    ∀ calls : List ModelerCall, (∀ call ∈ calls, call.defined) →
      ∃ (q : Process) (hs : List ScipObject),
        ModelerCall.run E p calls = some (q, hs) ∧
        q.self.objects_ = p.self.objects_ ++ hs ∧
        (p.s_count + calls.length < UINT_RANGE →
          (∀ h ∈ p.self.objects_, h.id_ < p.s_count) →
          ∀ h ∈ hs, q.self.objects_.count h = 1) := by
  refine ⟨?_, ?_, ?_, ?_, ?_, ?_, ?_, ?_, ?_, ?_⟩
  · intro var var_name objCoeff lb ub vartype score h
    rcases ScipModeler.createVar_cases E p var var_name objCoeff lb ub vartype score with
      hc | ⟨⟨rc, hrc⟩, _⟩
    · exact hc.2.2.2
    · rw [h] at hrc
      cases hrc
  · intro con con_name lhs rhs vars coeffs h
    rcases ScipModeler.createConsLinear_cases E p con con_name lhs rhs vars coeffs with
      hc | ⟨⟨rc, hrc⟩, _⟩
    · exact hc.2.2.2
    · rw [h] at hrc
      cases hrc
  · intro con con_name lhs rhs vars coeffs h
    rcases ScipModeler.createFinalConsLinear_cases E p con con_name lhs rhs vars coeffs with
      hc | ⟨⟨rc, hrc⟩, _⟩
    · exact hc.2.2.2
    · rw [h] at hrc
      cases hrc
  · intro var var_name objCoeff dualObj vartype cons coeffs transformed score hlen hcreate
    obtain ⟨evs, hloop, _, _⟩ :=
      ScipModeler.createColumn_loop E
        (Modeler.createColumn.create (ScipModeler.toModeler E) p var var_name objCoeff dualObj
          vartype score).2 coeffs transformed cons 0
        (Modeler.createColumn.create (ScipModeler.toModeler E) p var var_name objCoeff dualObj
          vartype score).1 (by simpa using hlen)
    refine ⟨({ (Modeler.createColumn.create (ScipModeler.toModeler E) p var var_name objCoeff
            dualObj vartype score).1 with
          self :=
            { (Modeler.createColumn.create (ScipModeler.toModeler E) p var var_name objCoeff
                  dualObj vartype score).1.self with
              scip_ :=
                (Modeler.createColumn.create (ScipModeler.toModeler E) p var var_name objCoeff
                  dualObj vartype score).1.self.scip_ ++ evs } },
        (Modeler.createColumn.create (ScipModeler.toModeler E) p var var_name objCoeff dualObj
          vartype score).2), ?_, ?_⟩
    · unfold Modeler.createColumn
      rw [hloop]
      rfl
    · simp only [ScipModeler.createColumn_create]
      rcases ScipModeler.createVar_cases E p var var_name objCoeff 0
          (if vartype = .VARTYPE_BINARY then 1 else DBL_MAX) vartype score with
        hc | ⟨⟨rc, hrc⟩, _⟩
      · exact hc.2.2.2
      · unfold ScipModeler.createColumnVar at hcreate
        rw [hcreate] at hrc
        cases hrc
  · intro cons var coeff transformed
    obtain ⟨e, _, hstate⟩ := ScipModeler.addCoefLinear_state E p cons var coeff transformed
    rw [hstate]
  · intro var
    rfl
  · intro cons transformed
    rfl
  · intro EPSILON var
    simp [Modeler.isInteger, ScipModeler.toModeler, ScipModeler.getVarValue]
  · intro var
    rfl
  · intro calls hdef
    obtain ⟨q, hs, hrun, hobj, hids⟩ := ModelerCall.run_spec E calls p hdef
    refine ⟨q, hs, hrun, hobj, ?_⟩
    intro hwrap hfresh h hh
    obtain ⟨_, hmap⟩ := hids hwrap
    have hnodup : hs.Nodup := by
      apply List.Nodup.of_map (fun h : ScipObject => h.id_)
      rw [hmap]
      exact List.nodup_range' _ _
    have hge : p.s_count ≤ h.id_ := by
      have hmem : h.id_ ∈ hs.map (fun h : ScipObject => h.id_) := List.mem_map_of_mem _ hh
      rw [hmap] at hmem
      simp only [List.mem_range'_1] at hmem
      exact hmem.1
    have hnot : h ∉ p.self.objects_ := fun hin => absurd (hfresh h hin) (not_lt.mpr hge)
    rw [hobj, List.count_append, List.count_eq_zero.mpr hnot,
      List.count_eq_one_of_mem hnodup hh]

/-- C11 at an example run on a fresh process of the example engine: a variable is created, its
value is queried, a row is created; the registry then holds the handles handed back, each
exactly once. -/
theorem registry_append_only_witness :
    (∀ call ∈ [ModelerCall.createVar "x" 1 0 2 .VARTYPE_CONTINUOUS 0,
        ModelerCall.getVarValue exampleVar,
        ModelerCall.createConsLinear "c" 0 5 [exampleVar] [1]], call.defined) ∧
    Process.fresh.s_count + 3 < UINT_RANGE ∧
    (∀ h ∈ Process.fresh.self.objects_, h.id_ < Process.fresh.s_count) ∧
    ∃ (q : Process) (hs : List ScipObject),
      ModelerCall.run exampleEngine Process.fresh
          [ModelerCall.createVar "x" 1 0 2 .VARTYPE_CONTINUOUS 0,
            ModelerCall.getVarValue exampleVar,
            ModelerCall.createConsLinear "c" 0 5 [exampleVar] [1]] = some (q, hs) ∧
      q.self.objects_ = Process.fresh.self.objects_ ++ hs ∧
      ∀ h ∈ hs, q.self.objects_.count h = 1 :=
  ⟨by simp [ModelerCall.defined], by decide, by simp [Process.fresh],
   ((registry_append_only exampleEngine Process.fresh).2.2.2.2.2.2.2.2.2
      [ModelerCall.createVar "x" 1 0 2 .VARTYPE_CONTINUOUS 0,
        ModelerCall.getVarValue exampleVar,
        ModelerCall.createConsLinear "c" 0 5 [exampleVar] [1]]
      (by simp [ModelerCall.defined])).imp
      fun _ h => h.imp fun _ h2 =>
        ⟨h2.1, h2.2.1, h2.2.2 (by decide) (by simp [Process.fresh])⟩⟩

end StaticNurseScheduler
